import Mathlib

/-!
# eduvpn-common: the client state machine, OAuth callback checks and profile reconciliation

A shallow embedding of `client/fsm.go` (the state identifiers, `GetStateName`
and the registry literal of `newFSM`), of `state.go` (`VPNState.Register` and
`VPNState.Connect`) and of `internal/types/server.go`
(`DNMapOrString.UnmarshalJSON`), together with models of the parts of the
repository that the registry is handed to (`internal/fsm`) or that the tests
exercise (`internal/oauth`, the profile bookkeeping of `internal/server`).
-/

namespace EduVPN

/-! ## State identifiers (client/fsm.go, lines 14-60) -/

/-- The type `fsm.StateID` is an integer type; its declaration lives in
`internal/fsm`. Every Go integer type embeds in `Int`. -/
abbrev FSMStateID := Int

/-- The app is not registered with the wrapper (`iota`, 0). -/
def StateDeregistered : FSMStateID := 0

/-- The user has not chosen a server yet. -/
def StateNoServer : FSMStateID := 1

/-- The user selected a Secure Internet server but needs to choose a location. -/
def StateAskLocation : FSMStateID := 2

/-- The user has selected a Secure Internet location. -/
def StateChosenLocation : FSMStateID := 3

/-- We are loading the server details. -/
def StateLoadingServer : FSMStateID := 4

/-- The user has chosen a server to connect to and the server is initialized. -/
def StateChosenServer : FSMStateID := 5

/-- The OAuth process has started. -/
def StateOAuthStarted : FSMStateID := 6

/-- The OAuth process has finished and the user is now authorized with the server. -/
def StateAuthorized : FSMStateID := 7

/-- The user has requested a config for connecting. -/
def StateRequestConfig : FSMStateID := 8

/-- The go code is asking for a profile selection from the UI. -/
def StateAskProfile : FSMStateID := 9

/-- A profile has been chosen. -/
def StateChosenProfile : FSMStateID := 10

/-- A VPN configuration has been obtained. -/
def StateGotConfig : FSMStateID := 11

/-- The VPN is connecting. -/
def StateConnecting : FSMStateID := 12

/-- The VPN is disconnecting. -/
def StateDisconnecting : FSMStateID := 13

/-- The VPN is connected. -/
def StateConnected : FSMStateID := 14

/-- The fifteen declared identifiers, in declaration order. -/
def allStateIDs : List FSMStateID :=
  [StateDeregistered, StateNoServer, StateAskLocation, StateChosenLocation,
   StateLoadingServer, StateChosenServer, StateOAuthStarted, StateAuthorized,
   StateRequestConfig, StateAskProfile, StateChosenProfile, StateGotConfig,
   StateConnecting, StateDisconnecting, StateConnected]

/-- `GetStateName` (client/fsm.go, lines 62-97): the `switch` is rendered as a
chain of tests in the order of its cases; the `default` branch panics, which is
the `Except.error` result here. -/
def GetStateName (s : FSMStateID) : Except String String :=
  if s = StateDeregistered then .ok "Deregistered"
  else if s = StateNoServer then .ok "No_Server"
  else if s = StateAskLocation then .ok "Ask_Location"
  else if s = StateLoadingServer then .ok "Loading_Server"
  else if s = StateChosenServer then .ok "Chosen_Server"
  else if s = StateChosenLocation then .ok "Chosen_Location"
  else if s = StateOAuthStarted then .ok "OAuth_Started"
  else if s = StateRequestConfig then .ok "Request_Config"
  else if s = StateAskProfile then .ok "Ask_Profile"
  else if s = StateChosenProfile then .ok "Chosen_Profile"
  else if s = StateAuthorized then .ok "Authorized"
  else if s = StateGotConfig then .ok "Got_Config"
  else if s = StateConnecting then .ok "Connecting"
  else if s = StateDisconnecting then .ok "Disconnecting"
  else if s = StateConnected then .ok "Connected"
  else .error "unknown conversion of state to string"

/-! ## The registry (client/fsm.go, lines 104-210) -/

/-- One entry of a state's transition list: `fsm.Transition`, used in the
source with the fields `To` and `Description`. -/
structure FSMTransition where
  To : FSMStateID
  Description : String
deriving DecidableEq, Repr

/-- A registry entry: `fsm.State`, used in the source with the field
`Transitions`. -/
structure FSMState where
  Transitions : List FSMTransition
deriving DecidableEq, Repr

/-- The registry type `fsm.States`: a keyed composite literal, kept as the list
of its `key: value` elements in the order they are written. -/
abbrev FSMStates := List (FSMStateID × FSMState)

/-- The literal `states := FSMStates{...}` of `newFSM`, element by element. -/
def newFSMStates : FSMStates :=
  [ (StateDeregistered, { Transitions :=
      [ { To := StateNoServer, Description := "Client registers" } ] }),
    (StateNoServer, { Transitions :=
      [ { To := StateLoadingServer, Description := "User clicks a server in the UI" },
        { To := StateConnected, Description := "The VPN is still active" } ] }),
    (StateAskLocation, { Transitions :=
      [ { To := StateChosenLocation, Description := "Location chosen" },
        { To := StateNoServer, Description := "Go back or Error" },
        { To := StateGotConfig, Description := "Go back or Error" } ] }),
    (StateChosenLocation, { Transitions :=
      [ { To := StateChosenServer, Description := "Server has been chosen" },
        { To := StateNoServer, Description := "Go back or Error" },
        { To := StateGotConfig, Description := "Go back or Error" } ] }),
    (StateLoadingServer, { Transitions :=
      [ { To := StateChosenServer, Description := "Server info loaded" },
        { To := StateAskLocation,
          Description := "User chooses a Secure Internet server but no location is configured" },
        { To := StateNoServer, Description := "Go back or Error" },
        { To := StateGotConfig, Description := "Go back or Error" } ] }),
    (StateChosenServer, { Transitions :=
      [ { To := StateAuthorized, Description := "Found tokens in config" },
        { To := StateOAuthStarted, Description := "No tokens found in config" },
        { To := StateNoServer, Description := "Go back or Error" },
        { To := StateGotConfig, Description := "Go back or Error" } ] }),
    (StateOAuthStarted, { Transitions :=
      [ { To := StateAuthorized, Description := "User authorizes with browser" },
        { To := StateNoServer, Description := "Go back or Error" },
        { To := StateGotConfig, Description := "Go back or Error" } ] }),
    (StateAuthorized, { Transitions :=
      [ { To := StateOAuthStarted, Description := "Re-authorize with OAuth" },
        { To := StateRequestConfig, Description := "Client requests a config" },
        { To := StateNoServer, Description := "Go back or Error" },
        { To := StateGotConfig, Description := "Go back or Error" } ] }),
    (StateRequestConfig, { Transitions :=
      [ { To := StateAskProfile, Description := "Multiple profiles found and no profile chosen" },
        { To := StateChosenProfile, Description := "Only one profile or profile already chosen" },
        { To := StateOAuthStarted, Description := "Re-authorize" },
        { To := StateNoServer, Description := "Go back or Error" },
        { To := StateGotConfig, Description := "Go back or Error" } ] }),
    (StateAskProfile, { Transitions :=
      [ { To := StateNoServer, Description := "Cancel or Error" },
        { To := StateChosenProfile, Description := "Profile has been chosen" },
        { To := StateNoServer, Description := "Go back or Error" },
        { To := StateGotConfig, Description := "Go back or Error" } ] }),
    (StateChosenProfile, { Transitions :=
      [ { To := StateGotConfig, Description := "Config has been obtained" },
        { To := StateNoServer, Description := "Go back or Error" },
        { To := StateGotConfig, Description := "Go back or Error" } ] }),
    (StateGotConfig, { Transitions :=
      [ { To := StateNoServer, Description := "Choose a new server" },
        { To := StateLoadingServer, Description := "Get a new configuration" },
        { To := StateConnecting, Description := "VPN is connecting" } ] }),
    (StateConnecting, { Transitions :=
      [ { To := StateGotConfig, Description := "Go back or Error" },
        { To := StateConnected, Description := "Done connecting" } ] }),
    (StateConnected, { Transitions :=
      [ { To := StateDisconnecting, Description := "The VPN is disconnecting" } ] }),
    (StateDisconnecting, { Transitions :=
      [ { To := StateGotConfig, Description := "Done disconnecting" },
        { To := StateConnected, Description := "Go back or Error" } ] }) ]

/-- The entry stored under key `s`, if the literal has one. -/
def entryOf (states : FSMStates) (s : FSMStateID) : Option FSMState :=
  states.lookup s

/-- The targets listed for `s`: the `To` fields of its transition list, in
order; a key without entry lists nothing. -/
def targetsOf (states : FSMStates) (s : FSMStateID) : List FSMStateID :=
  match entryOf states s with
  | some st => st.Transitions.map (fun tr => tr.To)
  | none => []

/-- Whether `t` is listed among the transitions of `s`. -/
def allowed (states : FSMStates) (s t : FSMStateID) : Bool :=
  (targetsOf states s).contains t

/-- A sequence of states is accepted by the registry when every consecutive
pair is an allowed transition. -/
def accepted (states : FSMStates) : List FSMStateID → Bool
  | [] => true
  | [_] => true
  | s :: t :: rest => allowed states s t && accepted states (t :: rest)

/-! ## The engine the registry is handed to -/

/-- Modelled from the spec: the engine type `fsm.FSM` of `internal/fsm` is not
among the sources at hand. The record holds what `newFSM` passes to `Init` (initial state,
registry, observer callback, directory, name function, debug flag). The
observer callback acts on a host state `W` and receives the associated data
`D`. -/
structure FSM (D W : Type) where
  Current : FSMStateID
  States : FSMStates
  StateCallback : FSMStateID → FSMStateID → D → W → Bool × W
  Directory : String
  GetName : FSMStateID → Except String String
  Debug : Bool

/-- Modelled from the spec: `FSM.Init` of `internal/fsm` is not among the sources at hand; it
stores its six arguments, the first being the state the machine starts in. -/
def FSM.Init {D W : Type} (current : FSMStateID) (states : FSMStates)
    (callback : FSMStateID → FSMStateID → D → W → Bool × W) (directory : String)
    (nameGen : FSMStateID → Except String String) (debug : Bool) : FSM D W :=
  { Current := current, States := states, StateCallback := callback,
    Directory := directory, GetName := nameGen, Debug := debug }

/-- `newFSM` (client/fsm.go, lines 99-214): the registry literal is handed to
`Init` together with `StateDeregistered` as initial state. -/
def newFSM {D W : Type} (callback : FSMStateID → FSMStateID → D → W → Bool × W)
    (directory : String) (debug : Bool) : FSM D W :=
  FSM.Init StateDeregistered newFSMStates callback directory GetStateName debug

/-- Modelled from the spec: the transition operation of `internal/fsm` is not
among the sources at hand. Spec 4.1: it fails (returns false, no state change, callback not
invoked) if the target is not listed among the current state's allowed
transitions; on success the current state is updated before the callback
fires, the callback is invoked with (old, new, associated data), and the
boolean the callback returns is ignored for the transition's own success. The
result is the returned boolean, the machine afterwards and the host state
afterwards. -/
def FSM.transition {D W : Type} (m : FSM D W) (target : FSMStateID) (data : D) (w : W) :
    Bool × FSM D W × W :=
  if allowed m.States m.Current target then
    let old := m.Current
    let m1 : FSM D W := { m with Current := target }
    let r := m1.StateCallback old target data w
    (true, m1, r.2)
  else
    (false, m, w)

/-- A machine of `newFSM` whose current state is `s`. -/
def newFSMAt {D W : Type} (callback : FSMStateID → FSMStateID → D → W → Bool × W)
    (directory : String) (debug : Bool) (s : FSMStateID) : FSM D W :=
  { (newFSM callback directory debug : FSM D W) with Current := s }

/-- An observer that counts its invocations in the host state. -/
def countingCallback : FSMStateID → FSMStateID → String → Nat → Bool × Nat :=
  fun _ _ _ n => (true, n + 1)

/-- Serving a list of transition requests one after the other: the returned
booleans in order, the machine and the host state at the end. -/
def FSM.run {D W : Type} (m : FSM D W) (w : W) :
    List (FSMStateID × D) → List Bool × FSM D W × W
  | [] => ([], m, w)
  | req :: rest =>
    let r := m.transition req.1 req.2 w
    let r2 := FSM.run r.2.1 r.2.2 rest
    (r.1 :: r2.1, r2.2)

/-- The nine states passed through while a configuration is being obtained. -/
def obtainingStates : List FSMStateID :=
  [StateAskLocation, StateChosenLocation, StateLoadingServer, StateChosenServer,
   StateOAuthStarted, StateAuthorized, StateRequestConfig, StateAskProfile,
   StateChosenProfile]

/-- State sequence of a successful first config retrieval with a single profile. -/
def firstRetrieval : List FSMStateID :=
  [StateDeregistered, StateNoServer, StateLoadingServer, StateChosenServer,
   StateOAuthStarted, StateAuthorized, StateRequestConfig, StateChosenProfile,
   StateGotConfig]

/-- State sequence of a successful first config retrieval in which the profile
is asked from the UI. -/
def firstRetrievalAsk : List FSMStateID :=
  [StateDeregistered, StateNoServer, StateLoadingServer, StateChosenServer,
   StateOAuthStarted, StateAuthorized, StateRequestConfig, StateAskProfile,
   StateChosenProfile, StateGotConfig]

/-- A path from `a` to `b` along allowed transitions none of whose states
(end points included) is `NoServer` or `GotConfig`. -/
def AvoidingPath (states : FSMStates) (a b : FSMStateID) (p : List FSMStateID) : Prop :=
  p.head? = some a ∧ p.getLast? = some b ∧ accepted states p = true
    ∧ ∀ x ∈ p, x ≠ StateNoServer ∧ x ≠ StateGotConfig

/-- The states that can be visited from `AskLocation` before the machine goes
through `NoServer` or `GotConfig`. -/
def afterAskLocation : List FSMStateID :=
  [StateAskLocation, StateChosenLocation, StateChosenServer, StateOAuthStarted,
   StateAuthorized, StateRequestConfig, StateAskProfile, StateChosenProfile]

/-- The states that can be visited from `AskProfile` or `ChosenProfile` before
the machine goes through `NoServer` or `GotConfig`. -/
def afterAskProfile : List FSMStateID :=
  [StateAskProfile, StateChosenProfile]

/-- The connection-lifecycle states. -/
def lifecycleStates : List FSMStateID :=
  [StateConnecting, StateDisconnecting, StateConnected]

/-- The descriptions that the registry gives for the transition from `s` to
`t`, one for each time `t` is listed for `s`. -/
def descriptionsOf (states : FSMStates) (s t : FSMStateID) : List String :=
  match entryOf states s with
  | some st => (st.Transitions.filter fun tr => tr.To == t).map fun tr => tr.Description
  | none => []

/-- The names the 15 identifiers get from `GetStateName`, in declaration
order. -/
def stateNames : List String :=
  ["Deregistered", "No_Server", "Ask_Location", "Chosen_Location", "Loading_Server",
   "Chosen_Server", "OAuth_Started", "Authorized", "Request_Config", "Ask_Profile",
   "Chosen_Profile", "Got_Config", "Connecting", "Disconnecting", "Connected"]

/-! ## OAuth callback validation -/

/-- The parameters of a request URL, `httpw.URLParameters`: written in the
tests as a keyed literal from parameter name to value. -/
abbrev URLParameters := List (String × String)

/-- The constant `callbackParameterErrorPrefix` of `TestConnectOAuthParameters`
(client/client_test.go, line 185). -/
def callbackParameterErrorPrefix : String := "failed retrieving parameter '"

/-- The constant `callbackStateMatchErrorPrefix` of `TestConnectOAuthParameters`
(client/client_test.go, line 186). -/
def callbackStateMatchErrorPrefix : String := "failed matching state"

/-- The constant `callbackISSMatchErrorPrefix` of `TestConnectOAuthParameters`
(client/client_test.go, line 187). -/
def callbackISSMatchErrorPrefix : String := "failed matching ISS"

/-- The test `strings.HasPrefix(msg, errPrefix)` of `testConnectOAuthParameter`
(client/client_test.go, line 178). -/
def hasPrefix (msg pre : String) : Bool :=
  pre.toList.isPrefixOf msg.toList

/-- Modelled from the spec: the session of `internal/oauth` is not among the sources at hand.
Of the fields the spec lists in section 3, the callback checks read the
anti-CSRF state nonce and the issuer URL expected in the callback. -/
structure OAuthSession where
  State : String
  ISS : String
deriving DecidableEq, Repr

/-- Modelled from the spec: the callback errors of `internal/oauth` are not
among the sources at hand. The three kinds of spec 4.2: a parameter error
naming the missing key, a state-mismatch error and an issuer-mismatch error,
each with the values involved (spec 7: the original offending key or value). -/
inductive CallbackError where
  | Parameter (key : String)
  | StateMatch (expected got : String)
  | ISSMatch (expected got : String)
deriving DecidableEq, Repr

/-- Modelled from the spec: the stable prefix of the message of a callback
error (`internal/oauth`, not among the sources at hand). Spec 8: a
parameter error begins with a fixed "missing parameter" prefix; a mismatched
`state` fails with a prefix "failed matching state"; a mismatched `iss` fails
with prefix "failed matching ISS". -/
def CallbackError.fixedPrefix : CallbackError → String
  | .Parameter _ => "missing parameter"
  | .StateMatch _ _ => "failed matching state"
  | .ISSMatch _ _ => "failed matching ISS"

/-- Modelled from the spec: the message of a callback error (`internal/oauth`,
not among the sources at hand). Spec 7 and 8 fix the prefix only; what follows
it is left open and is the parameter `detail`. -/
def CallbackError.message (detail : CallbackError → String) (e : CallbackError) : String :=
  e.fixedPrefix ++ detail e

/-- Modelled from the spec: the parameters a callback must carry
(`internal/oauth`, not among the sources at hand). Spec 4.2 (a): all of
`state`, `code`, `iss` are present. -/
def requiredParameters : List String :=
  ["state", "code", "iss"]

/-- Modelled from the spec: the callback handler of `internal/oauth` is not
among the sources at hand. Spec 4.2, callback validation, in order,
short-circuiting on first failure: (a) all of `state`, `code`, `iss` are
present, a missing one fails with a parameter error naming the missing key;
(b) the received `state` equals the session's nonce, else a state-mismatch
error; (c) the received `iss` equals the expected issuer, else an
issuer-mismatch error. The three parameters are looked up in the order in
which (a) lists them. On success the result is the authorization code. -/
def validateCallback (session : OAuthSession) (parameters : URLParameters) :
    Except CallbackError String :=
  match parameters.lookup "state" with
  | none => .error (.Parameter "state")
  | some state =>
    match parameters.lookup "code" with
    | none => .error (.Parameter "code")
    | some code =>
      match parameters.lookup "iss" with
      | none => .error (.Parameter "iss")
      | some iss =>
        if state ≠ session.State then .error (.StateMatch session.State state)
        else if iss ≠ session.ISS then .error (.ISSMatch session.ISS iss)
        else .ok code

/-- The table `tests` of `TestConnectOAuthParameters` (client/client_test.go,
lines 193-211): expected error prefix and callback parameters; `iss` is the
server URI. -/
def connectOAuthParameterTests (iss : String) : List (String × URLParameters) :=
  [ (callbackParameterErrorPrefix, [("iss", iss)]),
    (callbackParameterErrorPrefix, [("iss", iss), ("code", "42")]),
    (callbackStateMatchErrorPrefix, [("iss", iss), ("code", "42"), ("state", "21")]),
    (callbackISSMatchErrorPrefix, [("iss", "37"), ("code", "42"), ("state", "21")]) ]

/-- The verdict of `testConnectOAuthParameter` (client/client_test.go, lines
153-180) on the outcome of the authorization: with an empty expected prefix
the error must be nil, otherwise there must be an error whose message has the
prefix. -/
def testConnectOAuthParameter (detail : CallbackError → String)
    (outcome : Except CallbackError String) (errPre : String) : Bool :=
  match outcome with
  | .ok _ => errPre == ""
  | .error e => errPre != "" && hasPrefix (e.message detail) errPre

/-- The kinds of error that `Test_connect_oauth_parameters` (state_test.go,
lines 156-160) expects. -/
inductive ExpectedErr where
  | failedCallbackParameterError
  | failedCallbackStateMatchError
deriving DecidableEq, Repr

/-- The table `tests` of `Test_connect_oauth_parameters` (state_test.go, lines
162-169). -/
def connectOAuthParameterTestsLegacy : List (ExpectedErr × URLParameters) :=
  [ (.failedCallbackParameterError, []),
    (.failedCallbackParameterError, [("code", "42")]),
    (.failedCallbackStateMatchError, [("code", "42"), ("state", "21")]) ]

/-- The verdict of `test_connect_oauth_parameter` (state_test.go, lines
139-153): the cause of the error must be of the expected kind. -/
def testConnectOAuthParameterLegacy (outcome : Except CallbackError String)
    (expectedErr : ExpectedErr) : Bool :=
  match outcome, expectedErr with
  | .error (.Parameter _), .failedCallbackParameterError => true
  | .error (.StateMatch _ _), .failedCallbackStateMatchError => true
  | _, _ => false

/-- A session as the tests meet it: the nonce is random, the issuer is the
server URI. -/
def testSession : OAuthSession :=
  { State := "Jx3mR0kq8Vt1", ISS := "https://eduvpnserver/" }

/-! ## Profile reconciliation -/

/-- Modelled from the spec: the profile type of `internal/server` is not among
the sources at hand. A profile is named by its id. -/
structure ServerProfile where
  ID : String
deriving DecidableEq, Repr

/-- Modelled from the spec: `Base.Profiles` of `internal/server` is not among
the sources at hand: the current profile id (`Base.Profiles.Current`, as the tests read and
write it) and the profile list (`Base.Profiles.List` in spec 3). -/
structure ServerProfiles where
  Current : String
  ProfileList : List ServerProfile
deriving DecidableEq, Repr

/-- Modelled from the spec: the `Base` of a server (`internal/server`, not
among the sources at hand), reduced to the profiles it owns. -/
structure ServerBase where
  Profiles : ServerProfiles
deriving DecidableEq, Repr

/-- The ids of a profile list. -/
def profileIDs (l : List ServerProfile) : List String :=
  l.map (fun p => p.ID)

/-- Modelled from the spec: the profile reconciliation of `internal/server` is
not among the sources at hand. Spec 4.3: after fetching the profile list, if the stored
current profile id is not present in the freshly fetched list, it is replaced
with the first profile in the fetched list; the substitution is silent (no
error) and shows in the stored Base afterwards. The spec names no fallback
for a fetched list without profiles; the stored id is then left as it is. -/
def reconcileProfiles (base : ServerBase) (fetched : List ServerProfile) : ServerBase :=
  if (profileIDs fetched).contains base.Profiles.Current then
    { Profiles := { Current := base.Profiles.Current, ProfileList := fetched } }
  else
    match fetched with
    | first :: _ => { Profiles := { Current := first.ID, ProfileList := fetched } }
    | [] => { Profiles := { Current := base.Profiles.Current, ProfileList := fetched } }

/-- The stored Base of `TestInvalidProfileCorrected` after the test has
overwritten the current profile (client/client_test.go, line 335). -/
def invalidProfileBase : ServerBase :=
  { Profiles :=
      { Current := "IDONOTEXIST"
        ProfileList := [{ ID := "default" }, { ID := "other" }] } }

/-! ## The legacy orchestrator (src/state.go) -/

/-- A call that `Register` or `Connect` makes, as it shows in the order of
calls of a run. The state callback is a func value `f`; `go f(...)` starts it
in a goroutine of its own. The methods called on the state or its server
(`LoadConfig`, `Initialize`, `IsAuthenticated`, `InitializeOAuth`,
`FinishOAuth`, `WriteConfig`, `GetConfig`) are declared in other files of the
package; a call records which one is called. -/
inductive Call (C : Type) where
  | StateCallback (f : C) (a b c : String)
  | GoStateCallback (f : C) (a b c : String)
  | LoadConfig
  | Initialize (url : String)
  | IsAuthenticated
  | InitializeOAuth
  | FinishOAuth
  | WriteConfig
  | GetConfig
deriving DecidableEq, Repr

/-- `VPNState` (state.go, lines 3-14). `C` is the type of callback func
values, `Srv` of server pointers, `Disco` of discovery lists; a nil pointer is
`none`. `Register` takes `C` to be `Option F`, where `none` is the nil func
value. -/
structure VPNState (C Srv Disco : Type) where
  ConfigDirectory : String
  Name : String
  StateCallback : C
  Server : Option Srv
  DiscoList : Option Disco

/-- What `state.LoadConfig()` does in a run: the error it returns and the two
fields it can fill (the other three fields carry the tag `json:"-"`). -/
structure LoadConfigResult (E Srv Disco : Type) where
  err : Option E
  Server : Option Srv
  DiscoList : Option Disco

/-- How a call of `Register` ends: it returns an error value (`none` is nil),
or it panics. -/
inductive RegisterOutcome (E : Type) where
  | returned (err : Option E)
  | panicked
deriving DecidableEq, Repr

/-- `VPNState.Register` (state.go, lines 16-29). The callback is a func value
that may be nil: its type is `Option F`, with `none` for nil. Calling the nil
func value at line 21 panics, after the three assignments and before
`LoadConfig`. The result is how the call ends, the state afterwards and the
calls made. -/
def VPNState.Register {F Srv Disco E : Type} (state : VPNState (Option F) Srv Disco)
    (name : String) (directory : String) (stateCallback : Option F)
    (load : LoadConfigResult E Srv Disco) :
    RegisterOutcome E × VPNState (Option F) Srv Disco × List (Call (Option F)) :=
  let state1 : VPNState (Option F) Srv Disco := { state with Name := name }
  let state2 : VPNState (Option F) Srv Disco := { state1 with ConfigDirectory := directory }
  let state3 : VPNState (Option F) Srv Disco := { state2 with StateCallback := stateCallback }
  match state3.StateCallback with
  | none => (.panicked, state3, [])
  | some _ =>
    let calls1 : List (Call (Option F)) :=
      [Call.StateCallback state3.StateCallback "Start" "Registered" "app registered"]
    let state4 : VPNState (Option F) Srv Disco :=
      { state3 with Server := load.Server, DiscoList := load.DiscoList }
    let calls2 : List (Call (Option F)) := calls1 ++ [Call.LoadConfig]
    match load.err with
    | some _ => (.returned none, state4, calls2)
    | none => (.returned none, state4, calls2)

/-- What the methods called by `Connect` return in a run: the pointer of the
`&Server{}` allocation, the error of `Server.Initialize`, the boolean of
`Server.IsAuthenticated`, the two results of `InitializeOAuth`, the error of
`FinishOAuth` and the two results of `Server.GetConfig`. -/
structure ConnectResults (E Srv : Type) where
  newServer : Srv
  initializeErr : Option E
  isAuthenticated : Bool
  authURL : String
  authInitializeErr : Option E
  oauthErr : Option E
  config : String
  configErr : Option E

/-- `VPNState.Connect` (state.go, lines 31-60). The result is the returned
pair (config string, error), the state afterwards and the calls made. -/
def VPNState.Connect {C Srv Disco E : Type} (state : VPNState C Srv Disco) (url : String)
    (r : ConnectResults E Srv) :
    (String × Option E) × VPNState C Srv Disco × List (Call C) :=
  let state1 : VPNState C Srv Disco :=
    match state.Server with
    | none => { state with Server := some r.newServer }
    | some _ => state
  let calls1 : List (Call C) := [Call.Initialize url]
  match r.initializeErr with
  | some initializeErr => (("", some initializeErr), state1, calls1)
  | none =>
    let calls2 := calls1 ++ [Call.IsAuthenticated]
    if !r.isAuthenticated then
      let calls3 := calls2 ++ [Call.InitializeOAuth]
      match r.authInitializeErr with
      | some authInitializeErr => (("", some authInitializeErr), state1, calls3)
      | none =>
        let calls4 := calls3 ++
          [Call.GoStateCallback state1.StateCallback "Registered" "OAuthInitialized" r.authURL,
           Call.FinishOAuth]
        match r.oauthErr with
        | some oauthErr => (("", some oauthErr), state1, calls4)
        | none =>
          let calls5 := calls4 ++
            [Call.StateCallback state1.StateCallback "OAuthInitialized" "OAuthFinished"
               "finished oauth",
             Call.WriteConfig]
          ((r.config, r.configErr), state1, calls5 ++ [Call.GetConfig])
    else
      ((r.config, r.configErr), state1, calls2 ++ [Call.GetConfig])

/-- A state before registration, with a named callback. -/
def sampleState : VPNState String Unit Unit :=
  { ConfigDirectory := "", Name := "", StateCallback := "callback", Server := none,
    DiscoList := none }

/-- A state before registration: no callback yet. -/
def unregisteredState : VPNState (Option String) Unit Unit :=
  { ConfigDirectory := "", Name := "", StateCallback := none, Server := none,
    DiscoList := none }

/-- A call of `LoadConfig` that finds no previous configuration. -/
def loadFails : LoadConfigResult String Unit Unit :=
  { err := some "no previous configuration", Server := none, DiscoList := none }

/-- A run of `Connect` in which OAuth succeeds and the config retrieval fails. -/
def runConfigFails : ConnectResults String Unit :=
  { newServer := (), initializeErr := none, isAuthenticated := false,
    authURL := "https://eduvpnserver/authorize", authInitializeErr := none,
    oauthErr := none, config := "", configErr := some "no config" }

/-- A run of `Connect` in which `FinishOAuth` fails. -/
def runOAuthFails : ConnectResults String Unit :=
  { newServer := (), initializeErr := none, isAuthenticated := false,
    authURL := "https://eduvpnserver/authorize", authInitializeErr := none,
    oauthErr := some "oauth failed", config := "config", configErr := none }

/-- A run of `Connect` for an already authenticated server. -/
def runAuthenticated : ConnectResults String Unit :=
  { newServer := (), initializeErr := none, isAuthenticated := true,
    authURL := "", authInitializeErr := none,
    oauthErr := none, config := "config", configErr := none }

/-! ## Display names (internal/types/server.go) -/

/-- A JSON text after parsing, as `encoding/json` sees it. -/
inductive JSONValue where
  | null
  | bool (b : Bool)
  | number (literal : String)
  | string (s : String)
  | array (elems : List JSONValue)
  | object (members : List (String × JSONValue))

/-- The errors of `json.Unmarshal`: a syntax error for a text that is not
JSON, and `UnmarshalTypeError` with the kind of JSON value met (`Value`) and
the Go type it could not be stored in (the field `Type`, here `GoType`). -/
inductive JSONError where
  | SyntaxError
  | UnmarshalTypeError (Value : String) (GoType : String)
deriving DecidableEq, Repr

/-- The `Value` that `UnmarshalTypeError` reports for a JSON value. -/
def JSONValue.kind : JSONValue → String
  | .null => "null"
  | .bool _ => "bool"
  | .number _ => "number"
  | .string _ => "string"
  | .array _ => "array"
  | .object _ => "object"

/-- A Go `map[string]string` that is not nil: its entries, one per key. -/
abbrev StringMap := List (String × String)

/-- The assignment `m[k] = v`. -/
def StringMap.set (m : StringMap) (k v : String) : StringMap :=
  (k, v) :: m.filter (fun e => e.1 != k)

/-- `json.Unmarshal(data, &v)` for `v` of type `string`: `data` is `none` when
the bytes are not a JSON text. A JSON string is stored, `null` leaves `v` as
it is, any other value is a type error. The result is `v` afterwards and the
error. -/
def unmarshalString (data : Option JSONValue) (v : String) : String × Option JSONError :=
  match data with
  | none => (v, some .SyntaxError)
  | some (.string s) => (s, none)
  | some .null => (v, none)
  | some other => (v, some (.UnmarshalTypeError other.kind "string"))

/-- The members of a JSON object stored one after the other in a map with
string values: a string is stored under its key, `null` gives the zero value,
any other value gives the zero value and a type error, of which the first is
kept. -/
def decodeMembers : List (String × JSONValue) → StringMap → Option JSONError →
    StringMap × Option JSONError
  | [], m, err => (m, err)
  | (k, v) :: rest, m, err =>
    match v with
    | .string s => decodeMembers rest (m.set k s) err
    | .null => decodeMembers rest (m.set k "") err
    | other =>
      decodeMembers rest (m.set k "")
        (match err with
         | some e => some e
         | none => some (.UnmarshalTypeError other.kind "string"))

/-- `json.Unmarshal(data, &v)` for `v` of type `map[string]string` (`none` is
the nil map): an object is stored member by member in `v`, which is allocated
when nil; `null` sets `v` to nil; any other value is a type error. -/
def unmarshalMap (data : Option JSONValue) (v : Option StringMap) :
    Option StringMap × Option JSONError :=
  match data with
  | none => (v, some .SyntaxError)
  | some .null => (none, none)
  | some (.object members) =>
    let r := decodeMembers members (v.getD []) none
    (some r.1, r.2)
  | some other => (v, some (.UnmarshalTypeError other.kind "map[string]string"))

/-- The type `DNMapOrString` (server.go, line 36): a map, nil when `none`. -/
abbrev DNMapOrString := Option StringMap

/-- `DNMapOrString.UnmarshalJSON` (server.go, lines 40-59): the receiver
afterwards and the returned error. -/
def UnmarshalJSON (DN : DNMapOrString) (data : Option JSONValue) :
    DNMapOrString × Option JSONError :=
  let displayNameString : String := ""
  let r1 := unmarshalString data displayNameString
  match r1.2 with
  | none => (some [("en", r1.1)], none)
  | some _ =>
    let resultingMap : Option StringMap := none
    let r2 := unmarshalMap data resultingMap
    match r2.2 with
    | none => (r2.1, none)
    | some err => (DN, some err)

/-- The value that a JSON object gives for key `k`: that of the last member
with this key. -/
def memberValue : List (String × JSONValue) → String → Option JSONValue
  | [], _ => none
  | (k1, v) :: rest, k =>
    match memberValue rest k with
    | some w => some w
    | none => if k1 = k then some v else none

/-- A display name object with a repeated key. -/
def displayNameObject : List (String × JSONValue) :=
  [("en", .string "Demo"), ("nl", .string "Voorbeeld"), ("en", .string "Demo server")]

/-- Whether a JSON value is a string or `null`. -/
def JSONValue.isStringOrNull : JSONValue → Bool
  | .string _ => true
  | .null => true
  | _ => false

/-- Whether the input is a JSON string, `null`, or a JSON object all of whose
values are strings or `null`. -/
def displayNameInput (data : Option JSONValue) : Bool :=
  match data with
  | some (.string _) => true
  | some .null => true
  | some (.object members) => members.all fun e => e.2.isStringOrNull
  | _ => false

/-! ## Reachability in the registry -/

/-- A state is reachable when a sequence of allowed transitions leads to it
from `Deregistered`. -/
def Reachable (states : FSMStates) (s : FSMStateID) : Prop :=
  ∃ p : List FSMStateID,
    p.head? = some StateDeregistered ∧ p.getLast? = some s ∧ accepted states p = true

/-- For each of the 15 states a sequence of states that leads to it from
`Deregistered`. -/
def reachPaths : List (List FSMStateID) :=
  [ [StateDeregistered],
    [StateDeregistered, StateNoServer],
    [StateDeregistered, StateNoServer, StateLoadingServer],
    [StateDeregistered, StateNoServer, StateLoadingServer, StateAskLocation],
    [StateDeregistered, StateNoServer, StateLoadingServer, StateAskLocation,
      StateChosenLocation],
    [StateDeregistered, StateNoServer, StateLoadingServer, StateChosenServer],
    [StateDeregistered, StateNoServer, StateLoadingServer, StateChosenServer,
      StateOAuthStarted],
    [StateDeregistered, StateNoServer, StateLoadingServer, StateChosenServer,
      StateAuthorized],
    [StateDeregistered, StateNoServer, StateLoadingServer, StateChosenServer,
      StateAuthorized, StateRequestConfig],
    [StateDeregistered, StateNoServer, StateLoadingServer, StateChosenServer,
      StateAuthorized, StateRequestConfig, StateAskProfile],
    [StateDeregistered, StateNoServer, StateLoadingServer, StateChosenServer,
      StateAuthorized, StateRequestConfig, StateChosenProfile],
    [StateDeregistered, StateNoServer, StateLoadingServer, StateGotConfig],
    [StateDeregistered, StateNoServer, StateLoadingServer, StateGotConfig, StateConnecting],
    [StateDeregistered, StateNoServer, StateConnected, StateDisconnecting],
    [StateDeregistered, StateNoServer, StateConnected] ]

/-- An object with a numeric value. -/
def numericObject : List (String × JSONValue) :=
  [("en", .string "Demo"), ("nl", .number "1")]

/-! ## Theorems: the registry and the engine -/


/-- C1: for every state `s` (in particular every state of the registry built
by `newFSM`) and every target `t` that is not among the transitions listed for
`s`, a transition request to `t` while the current state is `s` returns false,
leaves the machine (hence its current state `s`) as it was, and leaves the
host state untouched whatever the observer callback is: the callback is not
invoked. -/
theorem transition_rejects_unlisted {D W : Type}
    (callback : FSMStateID → FSMStateID → D → W → Bool × W) (directory : String)
    (debug : Bool) (s t : FSMStateID) (data : D) (w : W)
    (ht : t ∉ targetsOf (newFSM callback directory debug).States s) :
    (newFSMAt callback directory debug s).transition t data w
        = (false, newFSMAt callback directory debug s, w)
      ∧ ((newFSMAt callback directory debug s).transition t data w).2.1.Current = s := by
  have hal : allowed (newFSMAt callback directory debug s).States
      (newFSMAt callback directory debug s).Current t = false := by
    simp only [newFSMAt, newFSM, FSM.Init, allowed, List.contains_eq_any_beq, List.any_eq_false]
    intro x hx hxt
    exact ht (by rw [eq_of_beq hxt]; exact hx)
  simp only [FSM.transition, hal]
  exact ⟨by simp, by simp [newFSMAt]⟩

/-- Witness for C1: in `Deregistered`, a state of the registry, a request for
`Connected` is rejected and the counting observer has not been called. -/
theorem transition_rejects_unlisted_witness :
    StateDeregistered ∈ (newFSM countingCallback "dir" false).States.map Prod.fst
      ∧ StateConnected ∉ targetsOf (newFSM countingCallback "dir" false).States
          StateDeregistered
      ∧ ((newFSMAt countingCallback "dir" false StateDeregistered).transition
          StateConnected "data" 0).1 = false
      ∧ ((newFSMAt countingCallback "dir" false StateDeregistered).transition
          StateConnected "data" 0).2.1.Current = StateDeregistered
      ∧ ((newFSMAt countingCallback "dir" false StateDeregistered).transition
          StateConnected "data" 0).2.2 = 0 := by
  have h := transition_rejects_unlisted countingCallback "dir" false
    StateDeregistered StateConnected "data" 0 (by decide)
  exact ⟨by decide, by decide, by rw [h.1], h.2, by rw [h.1]⟩

/-- The registry of the machine built by `newFSM` is the literal. -/
theorem newFSM_States {D W : Type} (callback : FSMStateID → FSMStateID → D → W → Bool × W)
    (directory : String) (debug : Bool) :
    (newFSM callback directory debug).States = newFSMStates := rfl

/-- A state with an allowed target is a key of the registry. -/
theorem key_of_allowed (states : FSMStates) (s t : FSMStateID)
    (h : allowed states s t = true) : s ∈ states.map Prod.fst := by
  unfold allowed targetsOf entryOf at h
  induction states with
  | nil => simp [List.lookup] at h
  | cons kv rest ih =>
    obtain ⟨k, v⟩ := kv
    by_cases hk : s = k
    · simp [hk]
    · have hb : (s == k) = false := by simpa using hk
      simp only [List.lookup, hb] at h
      simp only [List.map_cons, List.mem_cons]
      exact Or.inr (ih h)

/-- C2: no state is terminal. The declared StateIDs are the 15 values 0..14,
each of them has an entry in the registry built by `newFSM`, and that entry
lists at least one outgoing transition; the registry has 15 entries under
distinct keys, so these are all its entries. -/
theorem no_terminal_state {D W : Type}
    (callback : FSMStateID → FSMStateID → D → W → Bool × W) (directory : String)
    (debug : Bool) :
    allStateIDs = (List.range 15).map Int.ofNat
      ∧ (allStateIDs.all fun s =>
          match entryOf (newFSM callback directory debug).States s with
          | some st => !st.Transitions.isEmpty
          | none => false) = true
      ∧ ((newFSM callback directory debug).States.map Prod.fst).Nodup
      ∧ (newFSM callback directory debug).States.length = 15 := by
  rw [newFSM_States]
  decide

/-- C3: the machine returned by `newFSM` starts in `Deregistered`, whose only
listed target is `NoServer`. A first request for `NoServer` succeeds, moves the
machine to `NoServer` and calls the observer with (Deregistered, NoServer,
data); a first request for any other target is rejected and changes nothing.
In a list of requests, all those that come before the first request for
`NoServer` are rejected and leave the machine in its initial state. -/
theorem first_transition_is_to_NoServer {D W : Type}
    (callback : FSMStateID → FSMStateID → D → W → Bool × W) (directory : String)
    (debug : Bool) (t : FSMStateID) (data : D) (w : W) (reqs : List (FSMStateID × D)) :
    (newFSM callback directory debug).Current = StateDeregistered
      ∧ targetsOf (newFSM callback directory debug).States StateDeregistered = [StateNoServer]
      ∧ (newFSM callback directory debug).transition t data w
          = (if t = StateNoServer then
              (true, newFSMAt callback directory debug StateNoServer,
                (callback StateDeregistered StateNoServer data w).2)
            else (false, newFSM callback directory debug, w))
      ∧ (newFSM callback directory debug).run w
            (reqs.takeWhile fun r => r.1 != StateNoServer)
          = ((reqs.takeWhile fun r => r.1 != StateNoServer).map (fun _ => false),
              newFSM callback directory debug, w) := by
  have step : ∀ (t : FSMStateID) (d : D) (w : W),
      (newFSM callback directory debug).transition t d w
        = (if t = StateNoServer then
            (true, newFSMAt callback directory debug StateNoServer,
              (callback StateDeregistered StateNoServer d w).2)
          else (false, newFSM callback directory debug, w)) := by
    intro t d w
    have hal : allowed (newFSM callback directory debug).States
        (newFSM callback directory debug).Current t = decide (t = StateNoServer) := by
      have h1 : targetsOf newFSMStates StateDeregistered = [StateNoServer] := by decide
      simp only [newFSM, FSM.Init, allowed, h1]
      by_cases h : t = StateNoServer
      · simp [h]
      · have h2 : ¬ StateNoServer = t := fun e => h e.symm
        simp [h, h2]
    by_cases h : t = StateNoServer
    · simp only [FSM.transition, hal, h, decide_True, if_true]
      rfl
    · simp only [FSM.transition, hal, h, decide_False, if_false]
      simp
  refine ⟨rfl, by rw [newFSM_States]; decide, step t data w, ?_⟩
  induction reqs with
  | nil => rfl
  | cons r rest ih =>
    by_cases h : r.1 = StateNoServer
    · have hb : (r.1 != StateNoServer) = false := by simp [h]
      simp only [List.takeWhile, hb]
      rfl
    · have hb : (r.1 != StateNoServer) = true := by simpa using h
      simp only [List.takeWhile, hb, FSM.run, step, h, if_false, List.map_cons]
      rw [ih]

/-- C4: from each of the nine states AskLocation, ChosenLocation,
LoadingServer, ChosenServer, OAuthStarted, Authorized, RequestConfig,
AskProfile and ChosenProfile, both `NoServer` and `GotConfig` are listed
targets, so either is one allowed transition away (a failure at any step of
obtaining a config, or a cancellation in OAuthStarted, can abort to it). -/
theorem abort_targets_allowed {D W : Type}
    (callback : FSMStateID → FSMStateID → D → W → Bool × W) (directory : String)
    (debug : Bool) (s : FSMStateID) (hs : s ∈ obtainingStates) :
    allowed (newFSM callback directory debug).States s StateNoServer = true
      ∧ allowed (newFSM callback directory debug).States s StateGotConfig = true := by
  rw [newFSM_States]
  have h : ∀ x ∈ obtainingStates,
      allowed newFSMStates x StateNoServer = true
        ∧ allowed newFSMStates x StateGotConfig = true := by decide
  exact h s hs

/-- Witness for C4: the cancellation case, current state `OAuthStarted`. -/
theorem abort_targets_allowed_witness :
    StateOAuthStarted ∈ obtainingStates
      ∧ allowed (newFSM countingCallback "dir" false).States StateOAuthStarted StateNoServer
          = true
      ∧ allowed (newFSM countingCallback "dir" false).States StateOAuthStarted StateGotConfig
          = true :=
  ⟨by decide, abort_targets_allowed countingCallback "dir" false StateOAuthStarted (by decide)⟩

/-- C5: the state sequence of a successful first config retrieval
(Deregistered, NoServer, LoadingServer, ChosenServer, OAuthStarted,
Authorized, RequestConfig, ChosenProfile, GotConfig) is accepted by the
registry step by step, and so is the variant that goes RequestConfig,
AskProfile, ChosenProfile. -/
theorem first_retrieval_accepted {D W : Type}
    (callback : FSMStateID → FSMStateID → D → W → Bool × W) (directory : String)
    (debug : Bool) :
    accepted (newFSM callback directory debug).States firstRetrieval = true
      ∧ accepted (newFSM callback directory debug).States firstRetrievalAsk = true := by
  rw [newFSM_States]
  decide

/-- C6: Connected -> Disconnecting, Disconnecting -> GotConfig, GotConfig ->
Connecting and Connecting -> Connected are allowed transitions, so the
sequence Connected, Disconnecting, GotConfig, Connecting, Connected is
accepted: from Connected the machine can come back to Connected. -/
theorem connected_cycle {D W : Type}
    (callback : FSMStateID → FSMStateID → D → W → Bool × W) (directory : String)
    (debug : Bool) :
    allowed (newFSM callback directory debug).States StateConnected StateDisconnecting = true
      ∧ allowed (newFSM callback directory debug).States StateDisconnecting StateGotConfig
          = true
      ∧ allowed (newFSM callback directory debug).States StateGotConfig StateConnecting = true
      ∧ allowed (newFSM callback directory debug).States StateConnecting StateConnected = true
      ∧ accepted (newFSM callback directory debug).States
          [StateConnected, StateDisconnecting, StateGotConfig, StateConnecting, StateConnected]
          = true := by
  rw [newFSM_States]
  decide

/-- Along an accepted sequence that starts in `afterAskLocation` and never
visits `NoServer` or `GotConfig`, every state is in `afterAskLocation`. -/
theorem stays_afterAskLocation (p : List FSMStateID) (a : FSMStateID)
    (ha : a ∈ afterAskLocation) (hacc : accepted newFSMStates (a :: p) = true)
    (hav : ∀ x ∈ a :: p, x ≠ StateNoServer ∧ x ≠ StateGotConfig) :
    ∀ x ∈ a :: p, x ∈ afterAskLocation := by
  have closed : ∀ s ∈ afterAskLocation, ∀ t ∈ targetsOf newFSMStates s,
      t = StateNoServer ∨ t = StateGotConfig ∨ t ∈ afterAskLocation := by decide
  induction p generalizing a with
  | nil =>
    intro x hx
    rw [List.mem_singleton] at hx
    rw [hx]
    exact ha
  | cons b rest ih =>
    simp only [accepted, Bool.and_eq_true] at hacc
    have hb : b ∈ targetsOf newFSMStates a := by
      have := hacc.1
      unfold allowed at this
      simpa using this
    have hbav := hav b (by simp)
    have hbS : b ∈ afterAskLocation := by
      rcases closed a ha b hb with h | h | h
      · exact absurd h hbav.1
      · exact absurd h hbav.2
      · exact h
    intro x hx
    rcases List.mem_cons.mp hx with h | h
    · rw [h]
      exact ha
    · exact ih b hbS hacc.2 (fun y hy => hav y (List.mem_cons_of_mem a hy)) x h

/-- C7, as stated, fails: no sequence of allowed transitions leads from
`AskLocation` to `LoadingServer` without passing through `NoServer` or
`GotConfig`. -/
theorem no_path_AskLocation_to_LoadingServer :
    ¬ ∃ p : List FSMStateID,
        AvoidingPath newFSMStates StateAskLocation StateLoadingServer p := by
  rintro ⟨p, hhead, hlast, hacc, hav⟩
  cases p with
  | nil => simp at hhead
  | cons a rest =>
    have ha : a = StateAskLocation := by simpa using hhead
    have hin := stays_afterAskLocation rest a (by rw [ha]; decide) hacc hav
    have hmem : StateLoadingServer ∈ a :: rest := List.mem_of_getLast?_eq_some hlast
    have hbad := hin StateLoadingServer hmem
    revert hbad
    decide

/-- C7, amended: starting from `AskLocation`, `ChosenServer` is reached by
allowed transitions via `ChosenLocation` without passing through `NoServer`
or `GotConfig`; `AskLocation` is itself entered from `LoadingServer`, and the
only states that list `LoadingServer` as a target are `NoServer` and
`GotConfig`. -/
theorem location_flow_reaches_ChosenServer {D W : Type}
    (callback : FSMStateID → FSMStateID → D → W → Bool × W) (directory : String)
    (debug : Bool) (s : FSMStateID)
    (hs : allowed (newFSM callback directory debug).States s StateLoadingServer = true) :
    AvoidingPath (newFSM callback directory debug).States StateAskLocation StateChosenServer
        [StateAskLocation, StateChosenLocation, StateChosenServer]
      ∧ allowed (newFSM callback directory debug).States StateLoadingServer StateAskLocation
          = true
      ∧ (s = StateNoServer ∨ s = StateGotConfig) := by
  rw [newFSM_States] at hs ⊢
  refine ⟨⟨rfl, rfl, by decide, by decide⟩, by decide, ?_⟩
  have hkey := key_of_allowed newFSMStates s StateLoadingServer hs
  have hall : ∀ k ∈ newFSMStates.map Prod.fst,
      allowed newFSMStates k StateLoadingServer = true →
        k = StateNoServer ∨ k = StateGotConfig := by decide
  exact hall s hkey hs

/-- Witness for the amended C7: `GotConfig` lists `LoadingServer`. -/
theorem location_flow_reaches_ChosenServer_witness :
    allowed (newFSM countingCallback "dir" false).States StateGotConfig StateLoadingServer
        = true
      ∧ AvoidingPath (newFSM countingCallback "dir" false).States StateAskLocation
          StateChosenServer [StateAskLocation, StateChosenLocation, StateChosenServer]
      ∧ allowed (newFSM countingCallback "dir" false).States StateLoadingServer
          StateAskLocation = true
      ∧ (StateGotConfig = StateNoServer ∨ StateGotConfig = StateGotConfig) :=
  ⟨by decide,
    location_flow_reaches_ChosenServer countingCallback "dir" false StateGotConfig (by decide)⟩

/-! ## Theorems: OAuth callback validation -/

/-- A message that starts with `pre` has the prefix `pre`. -/
theorem hasPrefix_append (pre rest : String) : hasPrefix (pre ++ rest) pre = true := by
  unfold hasPrefix
  rw [List.isPrefixOf_iff_prefix]
  simp [String.toList]

/-- No message has both the issuer-mismatch and the state-mismatch prefix. -/
theorem not_state_of_ISS (msg : String)
    (h : hasPrefix msg callbackISSMatchErrorPrefix = true) :
    hasPrefix msg callbackStateMatchErrorPrefix = false := by
  unfold hasPrefix at h ⊢
  rw [List.isPrefixOf_iff_prefix] at h
  obtain ⟨t, ht⟩ := h
  rw [← ht]
  have e1 : callbackISSMatchErrorPrefix.toList = "failed matching ISS".toList := rfl
  have e2 : callbackStateMatchErrorPrefix.toList = "failed matching state".toList := rfl
  rw [e1, e2]
  simp [String.toList, List.isPrefixOf]

/-- No message with the parameter-error prefix of the tests starts with
"missing parameter". -/
theorem not_missing_of_retrieving (msg : String)
    (h : hasPrefix msg callbackParameterErrorPrefix = true) :
    hasPrefix msg "missing parameter" = false := by
  unfold hasPrefix at h ⊢
  rw [List.isPrefixOf_iff_prefix] at h
  obtain ⟨t, ht⟩ := h
  rw [← ht]
  have e1 : callbackParameterErrorPrefix.toList = "failed retrieving parameter '".toList := rfl
  rw [e1]
  simp [String.toList, List.isPrefixOf]

/-- The message of a callback error begins with its fixed prefix, whatever
follows it. -/
theorem message_has_fixedPrefix (detail : CallbackError → String) (e : CallbackError) :
    hasPrefix (e.message detail) e.fixedPrefix = true :=
  hasPrefix_append _ _

/-- C8: callback validation runs in the order presence, state, issuer and
stops at the first failure. A missing required parameter gives a parameter
error that names a missing key; otherwise a state different from the session
nonce gives the error with prefix "failed matching state" whatever the iss
value is; otherwise an iss different from the expected issuer gives the error
with prefix "failed matching ISS"; otherwise the code is returned. -/
theorem callback_validation_order (session : OAuthSession) (parameters : URLParameters)
    (detail : CallbackError → String) :
    ((parameters.lookup "state" = none ∨ parameters.lookup "code" = none
          ∨ parameters.lookup "iss" = none) →
        ∃ key, key ∈ requiredParameters ∧ parameters.lookup key = none
          ∧ validateCallback session parameters = .error (.Parameter key))
      ∧ (∀ state code iss, parameters.lookup "state" = some state →
          parameters.lookup "code" = some code → parameters.lookup "iss" = some iss →
          state ≠ session.State →
          validateCallback session parameters = .error (.StateMatch session.State state)
            ∧ hasPrefix ((CallbackError.StateMatch session.State state).message detail)
                "failed matching state" = true)
      ∧ (∀ code iss, parameters.lookup "state" = some session.State →
          parameters.lookup "code" = some code → parameters.lookup "iss" = some iss →
          iss ≠ session.ISS →
          validateCallback session parameters = .error (.ISSMatch session.ISS iss)
            ∧ hasPrefix ((CallbackError.ISSMatch session.ISS iss).message detail)
                "failed matching ISS" = true)
      ∧ (∀ code, parameters.lookup "state" = some session.State →
          parameters.lookup "code" = some code →
          parameters.lookup "iss" = some session.ISS →
          validateCallback session parameters = .ok code) := by
  refine ⟨?_, ?_, ?_, ?_⟩
  · intro h
    cases hs : parameters.lookup "state" with
    | none => exact ⟨"state", by decide, hs, by simp [validateCallback, hs]⟩
    | some state =>
      cases hc : parameters.lookup "code" with
      | none => exact ⟨"code", by decide, hc, by simp [validateCallback, hs, hc]⟩
      | some code =>
        cases hi : parameters.lookup "iss" with
        | none => exact ⟨"iss", by decide, hi, by simp [validateCallback, hs, hc, hi]⟩
        | some iss =>
          rw [hs, hc, hi] at h
          simp at h
  · intro state code iss hs hc hi hne
    exact ⟨by simp [validateCallback, hs, hc, hi, hne], hasPrefix_append _ _⟩
  · intro code iss hs hc hi hne
    exact ⟨by simp [validateCallback, hs, hc, hi, hne], hasPrefix_append _ _⟩
  · intro code hs hc hi
    simp [validateCallback, hs, hc, hi]

/-- Witness for C8: a callback carrying `code`, a wrong `state` and a wrong
`iss` fails with the state-mismatch error. -/
theorem callback_validation_order_witness :
    validateCallback testSession [("iss", "37"), ("code", "42"), ("state", "21")]
        = .error (.StateMatch testSession.State "21")
      ∧ hasPrefix ((CallbackError.StateMatch testSession.State "21").message fun _ => "")
          "failed matching state" = true :=
  (callback_validation_order testSession
    [("iss", "37"), ("code", "42"), ("state", "21")] (fun _ => "")).2.1 "21" "42" "37"
      (by decide) (by decide) (by decide) (by decide)

/-- C9: for every callback in which `state` or `code` is missing, validation
fails with a parameter error which names a key that is missing, `state` or
`code`, and whose message begins with the fixed prefix "missing parameter". -/
theorem missing_parameter_error (session : OAuthSession) (parameters : URLParameters)
    (detail : CallbackError → String)
    (h : parameters.lookup "state" = none ∨ parameters.lookup "code" = none) :
    ∃ key : String, (key = "state" ∨ key = "code") ∧ parameters.lookup key = none
      ∧ validateCallback session parameters = .error (.Parameter key)
      ∧ hasPrefix ((CallbackError.Parameter key).message detail) "missing parameter"
          = true := by
  cases hs : parameters.lookup "state" with
  | none =>
    refine ⟨"state", Or.inl rfl, hs, ?_, hasPrefix_append _ _⟩
    simp [validateCallback, hs]
  | some state =>
    have hc : parameters.lookup "code" = none := by
      rcases h with h | h
      · rw [hs] at h
        exact absurd h (by simp)
      · exact h
    refine ⟨"code", Or.inr rfl, hc, ?_, hasPrefix_append _ _⟩
    simp [validateCallback, hs, hc]

/-- Witness for C9: a callback with `iss` and `code` and without `state`. -/
theorem missing_parameter_error_witness :
    ∃ key : String, (key = "state" ∨ key = "code")
      ∧ List.lookup key [("iss", "https://eduvpnserver/"), ("code", "42")] = none
      ∧ validateCallback testSession [("iss", "https://eduvpnserver/"), ("code", "42")]
          = .error (.Parameter key)
      ∧ hasPrefix ((CallbackError.Parameter key).message fun _ => "")
          "missing parameter" = true :=
  missing_parameter_error testSession [("iss", "https://eduvpnserver/"), ("code", "42")]
    (fun _ => "") (Or.inl (by decide))

/-- The expectations of the two test tables that the validation of spec 4.2
and the prefixes of spec 8 do not meet: the row with a wrong `state` and a
wrong `iss`, for which `TestConnectOAuthParameters` expects the prefix "failed
matching ISS"; the rows without `state`, for which it expects the prefix
"failed retrieving parameter '"; and the row without `iss`, for which
`Test_connect_oauth_parameters` expects the state-mismatch error. -/
theorem test_rows_not_met (session : OAuthSession) (detail : CallbackError → String)
    (h21 : session.State ≠ "21") :
    testConnectOAuthParameter detail
        (validateCallback session [("iss", "37"), ("code", "42"), ("state", "21")])
        callbackISSMatchErrorPrefix = false
      ∧ testConnectOAuthParameter detail
          (validateCallback session [("iss", session.ISS), ("code", "42")])
          callbackParameterErrorPrefix = false
      ∧ testConnectOAuthParameterLegacy
          (validateCallback session [("code", "42"), ("state", "21")])
          .failedCallbackStateMatchError = false := by
  have h21b : ¬ "21" = session.State := fun e => h21 e.symm
  have hstate : hasPrefix ((CallbackError.StateMatch session.State "21").message detail)
      callbackStateMatchErrorPrefix = true := hasPrefix_append _ _
  have hISS : hasPrefix ((CallbackError.StateMatch session.State "21").message detail)
      callbackISSMatchErrorPrefix = false := by
    cases hc : hasPrefix ((CallbackError.StateMatch session.State "21").message detail)
        callbackISSMatchErrorPrefix with
    | false => rfl
    | true =>
      rw [not_state_of_ISS _ hc] at hstate
      cases hstate
  have hmissing : hasPrefix ((CallbackError.Parameter "state").message detail)
      "missing parameter" = true := hasPrefix_append _ _
  have hretr : hasPrefix ((CallbackError.Parameter "state").message detail)
      callbackParameterErrorPrefix = false := by
    cases hc : hasPrefix ((CallbackError.Parameter "state").message detail)
        callbackParameterErrorPrefix with
    | false => rfl
    | true =>
      rw [not_missing_of_retrieving _ hc] at hmissing
      cases hmissing
  refine ⟨?_, ?_, ?_⟩
  · simp [validateCallback, List.lookup, testConnectOAuthParameter, h21b, hISS]
  · simp [validateCallback, List.lookup, testConnectOAuthParameter, hretr]
  · simp [validateCallback, List.lookup, testConnectOAuthParameterLegacy]

/-! ## Theorems: profile reconciliation -/

/-- C10, as stated, fails for a server whose freshly fetched profile list is
empty: the stored id "IDONOTEXIST" is not in the list, the list has no first
profile, and whatever `Current` is afterwards it names no profile of the
list. -/
theorem reconcile_empty_fetched_list :
    invalidProfileBase.Profiles.Current ∉ profileIDs []
      ∧ (reconcileProfiles invalidProfileBase []).Profiles.Current ∉ profileIDs []
      ∧ (profileIDs []).head? = none
      ∧ (∀ current : String, current ∉ profileIDs []) :=
  ⟨by decide, by decide, by decide, fun _ => by simp [profileIDs]⟩

/-- C10, amended: for every server whose freshly fetched profile list is not
empty and whose stored `Base.Profiles.Current` names an id that is not in that
list, the reconciliation returns a Base (it has no error result) in which
`Current` names a profile of the fetched list, namely the first profile of
that list; so it is the previously selected profile when the list has that
profile first. The stored list is the fetched one. -/
theorem reconcile_invalid_current (base : ServerBase) (fetched : List ServerProfile)
    (hne : fetched ≠ []) (hcur : base.Profiles.Current ∉ profileIDs fetched) :
    (reconcileProfiles base fetched).Profiles.Current ∈ profileIDs fetched
      ∧ (profileIDs fetched).head? = some (reconcileProfiles base fetched).Profiles.Current
      ∧ (reconcileProfiles base fetched).Profiles.ProfileList = fetched
      ∧ (∀ previous : String, (profileIDs fetched).head? = some previous →
          (reconcileProfiles base fetched).Profiles.Current = previous) := by
  have hc : (profileIDs fetched).contains base.Profiles.Current = false := by
    simpa using hcur
  cases fetched with
  | nil => exact absurd rfl hne
  | cons first rest =>
    have hr : reconcileProfiles base (first :: rest)
        = { Profiles := { Current := first.ID, ProfileList := first :: rest } } := by
      simp only [reconcileProfiles, hc]
      rfl
    rw [hr]
    refine ⟨by simp [profileIDs], by simp [profileIDs], rfl, ?_⟩
    intro previous hp
    simpa [profileIDs] using hp

/-- Witness for the amended C10: the scenario of `TestInvalidProfileCorrected`,
with the previously selected profile first in the fetched list. -/
theorem reconcile_invalid_current_witness :
    (reconcileProfiles invalidProfileBase
        [{ ID := "default" }, { ID := "other" }]).Profiles.Current = "default" :=
  (reconcile_invalid_current invalidProfileBase
    [{ ID := "default" }, { ID := "other" }] (by decide) (by decide)).2.2.2 "default"
      (by decide)

/-! ## Theorems: the legacy orchestrator -/

/-- C12, as stated, fails: in the run where OAuth succeeds and
`Server.GetConfig` returns an error, `Connect` returns that error and yet
`WriteConfig` has been invoked, before `GetConfig` was called. -/
theorem write_before_failed_config :
    (sampleState.Connect "https://eduvpnserver/" runConfigFails).1 = ("", some "no config")
      ∧ (sampleState.Connect "https://eduvpnserver/" runConfigFails).2.2
          = [Call.Initialize "https://eduvpnserver/", Call.IsAuthenticated,
             Call.InitializeOAuth,
             Call.GoStateCallback "callback" "Registered" "OAuthInitialized"
               "https://eduvpnserver/authorize",
             Call.FinishOAuth,
             Call.StateCallback "callback" "OAuthInitialized" "OAuthFinished" "finished oauth",
             Call.WriteConfig, Call.GetConfig]
      ∧ Call.WriteConfig ∈ (sampleState.Connect "https://eduvpnserver/" runConfigFails).2.2 := by
  refine ⟨rfl, rfl, ?_⟩
  decide

/-- C12, amended: in every run of `Connect`, `WriteConfig` is invoked exactly
when `Server.Initialize` succeeded, the server was not authenticated and both
`InitializeOAuth` and `FinishOAuth` returned without error; it is then invoked
once, after `FinishOAuth` has returned and before `Server.GetConfig` is
called, whatever `GetConfig` returns afterwards. -/
theorem write_only_after_oauth {C Srv Disco E : Type} (state : VPNState C Srv Disco)
    (url : String) (r : ConnectResults E Srv) :
    (Call.WriteConfig ∈ (state.Connect url r).2.2 ↔
        r.initializeErr = none ∧ r.isAuthenticated = false
          ∧ r.authInitializeErr = none ∧ r.oauthErr = none)
      ∧ (Call.WriteConfig ∈ (state.Connect url r).2.2 →
          (state.Connect url r).2.2
              = [Call.Initialize url, Call.IsAuthenticated, Call.InitializeOAuth,
                 Call.GoStateCallback state.StateCallback "Registered" "OAuthInitialized"
                   r.authURL,
                 Call.FinishOAuth,
                 Call.StateCallback state.StateCallback "OAuthInitialized" "OAuthFinished"
                   "finished oauth",
                 Call.WriteConfig, Call.GetConfig]
            ∧ (state.Connect url r).1 = (r.config, r.configErr)) := by
  cases hi : r.initializeErr with
  | some e => simp [VPNState.Connect, hi]
  | none =>
    cases ha : r.isAuthenticated with
    | true => simp [VPNState.Connect, hi, ha]
    | false =>
      cases hai : r.authInitializeErr with
      | some e => simp [VPNState.Connect, hi, ha, hai]
      | none =>
        cases ho : r.oauthErr with
        | some e => simp [VPNState.Connect, hi, ha, hai, ho]
        | none =>
          cases hs : state.Server <;> simp [VPNState.Connect, hi, ha, hai, ho, hs]

/-- Witness for the amended C12: the run in which the config retrieval fails
after a successful OAuth. -/
theorem write_only_after_oauth_witness :
    Call.WriteConfig ∈ (sampleState.Connect "https://eduvpnserver/" runConfigFails).2.2
      ∧ (sampleState.Connect "https://eduvpnserver/" runConfigFails).2.2
          = [Call.Initialize "https://eduvpnserver/", Call.IsAuthenticated,
             Call.InitializeOAuth,
             Call.GoStateCallback sampleState.StateCallback "Registered" "OAuthInitialized"
               runConfigFails.authURL,
             Call.FinishOAuth,
             Call.StateCallback sampleState.StateCallback "OAuthInitialized" "OAuthFinished"
               "finished oauth",
             Call.WriteConfig, Call.GetConfig]
      ∧ (sampleState.Connect "https://eduvpnserver/" runConfigFails).1
          = (runConfigFails.config, runConfigFails.configErr) :=
  ⟨by decide,
    (write_only_after_oauth sampleState "https://eduvpnserver/" runConfigFails).2
      (by decide)⟩

/-- C13: whenever `Server.Initialize`, `InitializeOAuth` or `FinishOAuth`
fails, `Connect` returns the empty config string with exactly that step's
error, and the calls made stop at the failed step: after a failed `Initialize`
nothing else is called; after a failed `InitializeOAuth` neither the callback
nor `FinishOAuth`, `WriteConfig` or `GetConfig`; after a failed `FinishOAuth`
neither `WriteConfig` nor `GetConfig`. -/
theorem connect_returns_step_error {C Srv Disco E : Type} (state : VPNState C Srv Disco)
    (url : String) (r : ConnectResults E Srv) :
    (∀ e, r.initializeErr = some e →
        (state.Connect url r).1 = ("", some e)
          ∧ (state.Connect url r).2.2 = [Call.Initialize url])
      ∧ (∀ e, r.initializeErr = none → r.isAuthenticated = false →
          r.authInitializeErr = some e →
          (state.Connect url r).1 = ("", some e)
            ∧ (state.Connect url r).2.2
                = [Call.Initialize url, Call.IsAuthenticated, Call.InitializeOAuth])
      ∧ (∀ e, r.initializeErr = none → r.isAuthenticated = false →
          r.authInitializeErr = none → r.oauthErr = some e →
          (state.Connect url r).1 = ("", some e)
            ∧ (state.Connect url r).2.2
                = [Call.Initialize url, Call.IsAuthenticated, Call.InitializeOAuth,
                   Call.GoStateCallback state.StateCallback "Registered" "OAuthInitialized"
                     r.authURL,
                   Call.FinishOAuth]
            ∧ Call.WriteConfig ∉ (state.Connect url r).2.2
            ∧ Call.GetConfig ∉ (state.Connect url r).2.2) := by
  refine ⟨?_, ?_, ?_⟩
  · intro e hi
    simp [VPNState.Connect, hi]
  · intro e hi ha hai
    simp [VPNState.Connect, hi, ha, hai]
  · intro e hi ha hai ho
    cases hs : state.Server <;> simp [VPNState.Connect, hi, ha, hai, ho, hs]

/-- Witness for C13: the run in which `FinishOAuth` fails. -/
theorem connect_returns_step_error_witness :
    (sampleState.Connect "https://eduvpnserver/" runOAuthFails).1 = ("", some "oauth failed")
      ∧ (sampleState.Connect "https://eduvpnserver/" runOAuthFails).2.2
          = [Call.Initialize "https://eduvpnserver/", Call.IsAuthenticated,
             Call.InitializeOAuth,
             Call.GoStateCallback sampleState.StateCallback "Registered" "OAuthInitialized"
               runOAuthFails.authURL,
             Call.FinishOAuth]
      ∧ Call.WriteConfig ∉ (sampleState.Connect "https://eduvpnserver/" runOAuthFails).2.2
      ∧ Call.GetConfig ∉ (sampleState.Connect "https://eduvpnserver/" runOAuthFails).2.2 :=
  (connect_returns_step_error sampleState "https://eduvpnserver/" runOAuthFails).2.2
    "oauth failed" rfl rfl rfl rfl

/-- C14: `Connect` enters the OAuth flow, calling `InitializeOAuth`, if and
only if `Server.Initialize` succeeded and the server is not authenticated;
`FinishOAuth` is called after it when `InitializeOAuth` returned without
error. For an already authenticated server (after a successful `Initialize`)
the calls are `Initialize`, `IsAuthenticated`, `GetConfig` only: no state
callback, no `WriteConfig`, and the result is exactly the result of
`Server.GetConfig()`; when `Initialize` fails the only call is `Initialize`,
so there is no state callback and no `WriteConfig` either. -/
theorem connect_oauth_iff_unauthenticated {C Srv Disco E : Type}
    (state : VPNState C Srv Disco) (url : String) (r : ConnectResults E Srv) :
    (Call.InitializeOAuth ∈ (state.Connect url r).2.2 ↔
        r.initializeErr = none ∧ r.isAuthenticated = false)
      ∧ (Call.FinishOAuth ∈ (state.Connect url r).2.2 ↔
          r.initializeErr = none ∧ r.isAuthenticated = false ∧ r.authInitializeErr = none)
      ∧ (Call.FinishOAuth ∈ (state.Connect url r).2.2 →
          [Call.Initialize url, Call.IsAuthenticated, Call.InitializeOAuth,
            Call.GoStateCallback state.StateCallback "Registered" "OAuthInitialized"
              r.authURL,
            Call.FinishOAuth] <+: (state.Connect url r).2.2)
      ∧ (r.initializeErr = none → r.isAuthenticated = true →
          (state.Connect url r).1 = (r.config, r.configErr)
            ∧ (state.Connect url r).2.2
                = [Call.Initialize url, Call.IsAuthenticated, Call.GetConfig])
      ∧ (r.isAuthenticated = true →
          (state.Connect url r).2.2 = [Call.Initialize url]
            ∨ (state.Connect url r).2.2
                = [Call.Initialize url, Call.IsAuthenticated, Call.GetConfig]) := by
  cases hi : r.initializeErr with
  | some e => simp [VPNState.Connect, hi]
  | none =>
    cases ha : r.isAuthenticated with
    | true => simp [VPNState.Connect, hi, ha]
    | false =>
      cases hai : r.authInitializeErr with
      | some e => simp [VPNState.Connect, hi, ha, hai]
      | none =>
        cases ho : r.oauthErr with
        | some e =>
          cases hs : state.Server <;> simp [VPNState.Connect, hi, ha, hai, ho, hs]
        | none =>
          cases hs : state.Server <;>
            simp [VPNState.Connect, hi, ha, hai, ho, hs, List.prefix_iff_eq_append]

/-- Witness for C14: the run for an already authenticated server. -/
theorem connect_oauth_iff_unauthenticated_witness :
    (sampleState.Connect "https://eduvpnserver/" runAuthenticated).1 = ("config", none)
      ∧ (sampleState.Connect "https://eduvpnserver/" runAuthenticated).2.2
          = [Call.Initialize "https://eduvpnserver/", Call.IsAuthenticated, Call.GetConfig] :=
  (connect_oauth_iff_unauthenticated sampleState "https://eduvpnserver/"
    runAuthenticated).2.2.2.1 rfl rfl

/-- C15, as stated, fails: with a nil callback `Register` stores the three
values and panics when it calls the callback; `LoadConfig` is not reached and
nothing is returned. -/
theorem register_nil_callback_panics :
    (unregisteredState.Register "org.eduvpn.app.linux" "configstest" none loadFails).1
        = RegisterOutcome.panicked
      ∧ (unregisteredState.Register "org.eduvpn.app.linux" "configstest" none loadFails).2.2
          = []
      ∧ (unregisteredState.Register "org.eduvpn.app.linux" "configstest" none
            loadFails).2.1.Name = "org.eduvpn.app.linux"
      ∧ (unregisteredState.Register "org.eduvpn.app.linux" "configstest" none
            loadFails).2.1.ConfigDirectory = "configstest" :=
  ⟨rfl, rfl, rfl, rfl⟩

/-- C15, amended: for every name, directory and callback that is not nil,
`Register` returns nil whatever `LoadConfig` returns; afterwards the state
holds these three values; the calls made are the callback, once, with
("Start", "Registered", "app registered"), followed by `LoadConfig`. -/
theorem register_returns_nil {F Srv Disco E : Type} (state : VPNState (Option F) Srv Disco)
    (name directory : String) (stateCallback : Option F)
    (load : LoadConfigResult E Srv Disco) (hcb : stateCallback ≠ none) :
    (state.Register name directory stateCallback load).1 = RegisterOutcome.returned none
      ∧ (state.Register name directory stateCallback load).2.1.Name = name
      ∧ (state.Register name directory stateCallback load).2.1.ConfigDirectory = directory
      ∧ (state.Register name directory stateCallback load).2.1.StateCallback = stateCallback
      ∧ (state.Register name directory stateCallback load).2.2
          = [Call.StateCallback stateCallback "Start" "Registered" "app registered",
             Call.LoadConfig] := by
  cases stateCallback with
  | none => exact absurd rfl hcb
  | some f => cases h : load.err <;> simp [VPNState.Register, h]

/-- Witness for the amended C15: a registration with a callback, in which
`LoadConfig` returns an error. -/
theorem register_returns_nil_witness :
    (unregisteredState.Register "org.eduvpn.app.linux" "configstest" (some "callback")
        loadFails).1 = RegisterOutcome.returned none
      ∧ (unregisteredState.Register "org.eduvpn.app.linux" "configstest" (some "callback")
          loadFails).2.1.Name = "org.eduvpn.app.linux"
      ∧ (unregisteredState.Register "org.eduvpn.app.linux" "configstest" (some "callback")
          loadFails).2.1.ConfigDirectory = "configstest"
      ∧ (unregisteredState.Register "org.eduvpn.app.linux" "configstest" (some "callback")
          loadFails).2.1.StateCallback = some "callback"
      ∧ (unregisteredState.Register "org.eduvpn.app.linux" "configstest" (some "callback")
          loadFails).2.2
          = [Call.StateCallback (some "callback") "Start" "Registered" "app registered",
             Call.LoadConfig] :=
  register_returns_nil unregisteredState "org.eduvpn.app.linux" "configstest"
    (some "callback") loadFails (by decide)

/-! ## Theorems: names, sources of OAuthStarted, the connection lifecycle -/

/-- A listed target of `s` is an allowed target, and conversely. -/
theorem allowed_iff_mem (states : FSMStates) (s t : FSMStateID) :
    allowed states s t = true ↔ t ∈ targetsOf states s := by
  unfold allowed
  simp

/-- Along an accepted sequence that starts in a set closed under the allowed
transitions other than those to `NoServer` and `GotConfig`, and that never
visits these two, every state is in the set. -/
theorem stays_in_closed (S : List FSMStateID)
    (closed : ∀ s ∈ S, ∀ t ∈ targetsOf newFSMStates s,
      t = StateNoServer ∨ t = StateGotConfig ∨ t ∈ S)
    (p : List FSMStateID) (a : FSMStateID) (ha : a ∈ S)
    (hacc : accepted newFSMStates (a :: p) = true)
    (hav : ∀ x ∈ a :: p, x ≠ StateNoServer ∧ x ≠ StateGotConfig) :
    ∀ x ∈ a :: p, x ∈ S := by
  induction p generalizing a with
  | nil =>
    intro x hx
    rw [List.mem_singleton] at hx
    rw [hx]
    exact ha
  | cons b rest ih =>
    simp only [accepted, Bool.and_eq_true] at hacc
    have hb : b ∈ targetsOf newFSMStates a := (allowed_iff_mem _ _ _).mp hacc.1
    have hbav := hav b (by simp)
    have hbS : b ∈ S := by
      rcases closed a ha b hb with h | h | h
      · exact absurd h hbav.1
      · exact absurd h hbav.2
      · exact h
    intro x hx
    rcases List.mem_cons.mp hx with h | h
    · rw [h]
      exact ha
    · exact ih b hbS hacc.2 (fun y hy => hav y (List.mem_cons_of_mem a hy)) x h

/-- C17: `GetStateName` returns a name exactly for the values 0 through 14 and
panics for every other value; the 15 declared StateIDs are these values, in
the order Deregistered, NoServer, AskLocation, ChosenLocation, LoadingServer,
ChosenServer, OAuthStarted, Authorized, RequestConfig, AskProfile,
ChosenProfile, GotConfig, Connecting, Disconnecting, Connected, with
Deregistered = 0. -/
theorem GetStateName_defined_iff (s : FSMStateID) :
    ((∃ name, GetStateName s = .ok name) ↔ 0 ≤ s ∧ s ≤ 14)
      ∧ (GetStateName s = .error "unknown conversion of state to string" ↔
          ¬ (0 ≤ s ∧ s ≤ 14))
      ∧ (s ∈ allStateIDs ↔ 0 ≤ s ∧ s ≤ 14)
      ∧ allStateIDs = (List.range 15).map Int.ofNat
      ∧ allStateIDs.map GetStateName = stateNames.map Except.ok := by
  have hin : ∀ x : Int, 0 ≤ x ∧ x ≤ 14 →
      x ∈ allStateIDs ∧ ∃ name, GetStateName x = .ok name := by
    intro x hx
    obtain ⟨h0, h14⟩ := hx
    interval_cases x
    all_goals exact ⟨by decide, ⟨_, rfl⟩⟩
  have hout : ∀ x : Int, ¬ (0 ≤ x ∧ x ≤ 14) →
      x ∉ allStateIDs ∧ GetStateName x = .error "unknown conversion of state to string" := by
    intro x hx
    have e0 : x ≠ 0 := by omega
    have e1 : x ≠ 1 := by omega
    have e2 : x ≠ 2 := by omega
    have e3 : x ≠ 3 := by omega
    have e4 : x ≠ 4 := by omega
    have e5 : x ≠ 5 := by omega
    have e6 : x ≠ 6 := by omega
    have e7 : x ≠ 7 := by omega
    have e8 : x ≠ 8 := by omega
    have e9 : x ≠ 9 := by omega
    have e10 : x ≠ 10 := by omega
    have e11 : x ≠ 11 := by omega
    have e12 : x ≠ 12 := by omega
    have e13 : x ≠ 13 := by omega
    have e14 : x ≠ 14 := by omega
    constructor
    · simp [allStateIDs, StateDeregistered, StateNoServer, StateAskLocation,
        StateChosenLocation, StateLoadingServer, StateChosenServer, StateOAuthStarted,
        StateAuthorized, StateRequestConfig, StateAskProfile, StateChosenProfile,
        StateGotConfig, StateConnecting, StateDisconnecting, StateConnected,
        e0, e1, e2, e3, e4, e5, e6, e7, e8, e9, e10, e11, e12, e13, e14]
    · simp [GetStateName, StateDeregistered, StateNoServer, StateAskLocation,
        StateChosenLocation, StateLoadingServer, StateChosenServer, StateOAuthStarted,
        StateAuthorized, StateRequestConfig, StateAskProfile, StateChosenProfile,
        StateGotConfig, StateConnecting, StateDisconnecting, StateConnected,
        e0, e1, e2, e3, e4, e5, e6, e7, e8, e9, e10, e11, e12, e13, e14]
  refine ⟨?_, ?_, ?_, by decide, rfl⟩
  · constructor
    · rintro ⟨name, hname⟩
      by_contra hc
      rw [(hout s hc).2] at hname
      cases hname
    · intro h
      exact (hin s h).2
  · constructor
    · intro herr hc
      obtain ⟨name, hname⟩ := (hin s hc).2
      rw [herr] at hname
      cases hname
    · intro h
      exact (hout s h).2
  · constructor
    · intro hmem
      by_contra hc
      exact (hout s hc).1 hmem
    · intro h
      exact (hin s h).1

/-- C18: `OAuthStarted` is an allowed target of exactly three states,
ChosenServer, Authorized and RequestConfig; and no sequence of allowed
transitions leads from AskProfile or from ChosenProfile to OAuthStarted
without passing through NoServer or GotConfig. -/
theorem OAuthStarted_sources {D W : Type}
    (callback : FSMStateID → FSMStateID → D → W → Bool × W) (directory : String)
    (debug : Bool) (s : FSMStateID) :
    (allowed (newFSM callback directory debug).States s StateOAuthStarted = true ↔
        s = StateChosenServer ∨ s = StateAuthorized ∨ s = StateRequestConfig)
      ∧ (¬ ∃ p, AvoidingPath (newFSM callback directory debug).States StateAskProfile
            StateOAuthStarted p)
      ∧ (¬ ∃ p, AvoidingPath (newFSM callback directory debug).States StateChosenProfile
            StateOAuthStarted p) := by
  rw [newFSM_States]
  have closed : ∀ x ∈ afterAskProfile, ∀ t ∈ targetsOf newFSMStates x,
      t = StateNoServer ∨ t = StateGotConfig ∨ t ∈ afterAskProfile := by decide
  have nopath : ∀ a ∈ afterAskProfile,
      ¬ ∃ p, AvoidingPath newFSMStates a StateOAuthStarted p := by
    rintro a ha ⟨p, hhead, hlast, hacc, hav⟩
    cases p with
    | nil => simp at hhead
    | cons b rest =>
      have hb : b = a := by simpa using hhead
      have hin := stays_in_closed afterAskProfile closed rest b (by rw [hb]; exact ha) hacc hav
      have hbad := hin StateOAuthStarted (List.mem_of_getLast?_eq_some hlast)
      revert hbad
      decide
  refine ⟨?_, nopath StateAskProfile (by decide), nopath StateChosenProfile (by decide)⟩
  constructor
  · intro h
    have hkey := key_of_allowed newFSMStates s StateOAuthStarted h
    have hall : ∀ k ∈ newFSMStates.map Prod.fst,
        allowed newFSMStates k StateOAuthStarted = true →
          k = StateChosenServer ∨ k = StateAuthorized ∨ k = StateRequestConfig := by decide
    exact hall s hkey h
  · rintro (h | h | h) <;> rw [h] <;> decide

/-- With the registry of `newFSM`, a state outside the connection lifecycle
and a target other than `Connecting` and `Connected`, a transition request
leaves the machine outside the lifecycle. -/
theorem transition_stays_outside {D W : Type} (m : FSM D W) (hS : m.States = newFSMStates)
    (hcur : m.Current ∉ lifecycleStates) (t : FSMStateID) (d : D) (w : W)
    (ht : t ≠ StateConnecting ∧ t ≠ StateConnected) :
    (m.transition t d w).2.1.States = newFSMStates
      ∧ (m.transition t d w).2.1.Current ∉ lifecycleStates := by
  unfold FSM.transition
  by_cases hal : allowed m.States m.Current t = true
  · simp only [hal, if_true]
    refine ⟨hS, ?_⟩
    intro hmem
    have htd : t = StateDisconnecting := by
      simp only [lifecycleStates, List.mem_cons, List.mem_singleton, List.not_mem_nil,
        or_false] at hmem
      rcases hmem with h | h | h
      · exact absurd h ht.1
      · exact h
      · exact absurd h ht.2
    rw [hS, htd] at hal
    have hkey := key_of_allowed newFSMStates m.Current StateDisconnecting hal
    have hall : ∀ k ∈ newFSMStates.map Prod.fst,
        allowed newFSMStates k StateDisconnecting = true → k ∈ lifecycleStates := by decide
    exact hcur (hall m.Current hkey hal)
  · simp only [hal]
    exact ⟨hS, hcur⟩

/-- With the registry of `newFSM`, a machine outside the connection lifecycle
that serves requests none of which is for `Connecting` or `Connected` ends
outside the lifecycle. -/
theorem run_stays_outside {D W : Type} (reqs : List (FSMStateID × D)) (m : FSM D W)
    (hS : m.States = newFSMStates) (hcur : m.Current ∉ lifecycleStates) (w : W)
    (hreq : ∀ r ∈ reqs, r.1 ≠ StateConnecting ∧ r.1 ≠ StateConnected) :
    (m.run w reqs).2.1.Current ∉ lifecycleStates := by
  induction reqs generalizing m w with
  | nil => exact hcur
  | cons r rest ih =>
    have hstep := transition_stays_outside m hS hcur r.1 r.2 w (hreq r (by simp))
    simp only [FSM.run]
    exact ih _ hstep.1 hstep.2 _ (fun x hx => hreq x (List.mem_cons_of_mem r hx))

/-- C19: the only allowed transitions that enter {Connecting, Disconnecting,
Connected} from outside are GotConfig -> Connecting and NoServer -> Connected;
the only ones that leave it are Connecting -> GotConfig and Disconnecting ->
GotConfig; Connected lists Disconnecting only. A machine of `newFSM` that is
never asked for Connecting or Connected is, after any number of the requests
it is given, in none of these three states. -/
theorem lifecycle_is_optional {D W : Type}
    (callback : FSMStateID → FSMStateID → D → W → Bool × W) (directory : String)
    (debug : Bool) (s t : FSMStateID) (w : W) (reqs : List (FSMStateID × D)) (n : Nat) :
    ((allowed (newFSM callback directory debug).States s t = true
          ∧ s ∉ lifecycleStates ∧ t ∈ lifecycleStates) ↔
        (s = StateGotConfig ∧ t = StateConnecting) ∨ (s = StateNoServer ∧ t = StateConnected))
      ∧ ((allowed (newFSM callback directory debug).States s t = true
            ∧ s ∈ lifecycleStates ∧ t ∉ lifecycleStates) ↔
          (s = StateConnecting ∧ t = StateGotConfig)
            ∨ (s = StateDisconnecting ∧ t = StateGotConfig))
      ∧ (allowed (newFSM callback directory debug).States StateConnected t = true ↔
          t = StateDisconnecting)
      ∧ ((∀ r ∈ reqs, r.1 ≠ StateConnecting ∧ r.1 ≠ StateConnected) →
          ((newFSM callback directory debug).run w (reqs.take n)).2.1.Current
            ∉ lifecycleStates) := by
  rw [newFSM_States]
  refine ⟨?_, ?_, ?_, ?_⟩
  · constructor
    · rintro ⟨hal, hs, ht⟩
      have hkey := key_of_allowed newFSMStates s t hal
      have hmem := (allowed_iff_mem _ _ _).mp hal
      have hall : ∀ k ∈ newFSMStates.map Prod.fst, ∀ x ∈ targetsOf newFSMStates k,
          k ∉ lifecycleStates → x ∈ lifecycleStates →
            (k = StateGotConfig ∧ x = StateConnecting)
              ∨ (k = StateNoServer ∧ x = StateConnected) := by decide
      exact hall s hkey t hmem hs ht
    · rintro (⟨hs, ht⟩ | ⟨hs, ht⟩) <;> rw [hs, ht] <;> decide
  · constructor
    · rintro ⟨hal, hs, ht⟩
      have hkey := key_of_allowed newFSMStates s t hal
      have hmem := (allowed_iff_mem _ _ _).mp hal
      have hall : ∀ k ∈ newFSMStates.map Prod.fst, ∀ x ∈ targetsOf newFSMStates k,
          k ∈ lifecycleStates → x ∉ lifecycleStates →
            (k = StateConnecting ∧ x = StateGotConfig)
              ∨ (k = StateDisconnecting ∧ x = StateGotConfig) := by decide
      exact hall s hkey t hmem hs ht
    · rintro (⟨hs, ht⟩ | ⟨hs, ht⟩) <;> rw [hs, ht] <;> decide
  · rw [allowed_iff_mem]
    have h1 : targetsOf newFSMStates StateConnected = [StateDisconnecting] := by decide
    rw [h1, List.mem_singleton]
  · intro hreq
    have hinit : (newFSM callback directory debug).Current ∉ lifecycleStates := by
      show StateDeregistered ∉ lifecycleStates
      decide
    exact run_stays_outside (reqs.take n) (newFSM callback directory debug) rfl hinit w
      (fun r hr => hreq r (List.mem_of_mem_take hr))

/-- Witness for C19: a client that registers, loads a server and goes back
is in `NoServer` afterwards, outside the connection lifecycle. -/
theorem lifecycle_is_optional_witness :
    ((newFSM countingCallback "dir" false).run 0
        ([(StateNoServer, "a"), (StateLoadingServer, "b"), (StateNoServer, "c")].take 3)
      ).2.1.Current ∉ lifecycleStates :=
  (lifecycle_is_optional countingCallback "dir" false StateNoServer StateConnected 0
    [(StateNoServer, "a"), (StateLoadingServer, "b"), (StateNoServer, "c")] 3).2.2.2
      (by decide)

/-- C20 fails on the registry: `AskProfile` lists `NoServer` twice, with the
descriptions "Cancel or Error" and "Go back or Error", and `ChosenProfile`
lists `GotConfig` twice, with the descriptions "Config has been obtained" and
"Go back or Error". These are the only two states whose transition list
repeats a target. -/
theorem duplicate_transition_targets {D W : Type}
    (callback : FSMStateID → FSMStateID → D → W → Bool × W) (directory : String)
    (debug : Bool) :
    targetsOf (newFSM callback directory debug).States StateAskProfile
        = [StateNoServer, StateChosenProfile, StateNoServer, StateGotConfig]
      ∧ descriptionsOf (newFSM callback directory debug).States StateAskProfile StateNoServer
          = ["Cancel or Error", "Go back or Error"]
      ∧ targetsOf (newFSM callback directory debug).States StateChosenProfile
          = [StateGotConfig, StateNoServer, StateGotConfig]
      ∧ descriptionsOf (newFSM callback directory debug).States StateChosenProfile
          StateGotConfig = ["Config has been obtained", "Go back or Error"]
      ∧ (((newFSM callback directory debug).States.map Prod.fst).filter fun k =>
            !decide (targetsOf (newFSM callback directory debug).States k).Nodup)
          = [StateAskProfile, StateChosenProfile] := by
  rw [newFSM_States]
  decide

/-! ## Theorems: display names -/

/-- Removing the entries of another key does not change what a key reads. -/
theorem lookup_filter_ne (m : StringMap) (k1 k : String) (h : k ≠ k1) :
    List.lookup k (m.filter (fun e => e.1 != k1)) = List.lookup k m := by
  induction m with
  | nil => rfl
  | cons e rest ih =>
    obtain ⟨a, b⟩ := e
    by_cases ha : a = k1
    · subst ha
      have hka : (k == a) = false := by simpa using h
      have hf : ((a, b) :: rest).filter (fun e => e.1 != a)
          = rest.filter (fun e => e.1 != a) := by
        simp [List.filter]
      rw [hf, ih]
      simp only [List.lookup, hka]
    · have hf : ((a, b) :: rest).filter (fun e => e.1 != k1)
          = (a, b) :: rest.filter (fun e => e.1 != k1) := by
        have hne : (a != k1) = true := by simpa using ha
        simp only [List.filter, hne]
      rw [hf]
      cases hka : (k == a) with
      | true => simp only [List.lookup, hka]
      | false =>
        simp only [List.lookup, hka]
        exact ih

/-- Reading a key after an assignment. -/
theorem StringMap.lookup_set (m : StringMap) (k1 v k : String) :
    (m.set k1 v).lookup k = if k = k1 then some v else m.lookup k := by
  unfold StringMap.set
  by_cases h : k = k1
  · simp [h, List.lookup]
  · have hb : (k == k1) = false := by simpa using h
    simp only [List.lookup, hb, h, if_false]
    exact lookup_filter_ne m k1 k h

/-- An assignment keeps the keys of a map distinct. -/
theorem StringMap.nodup_set (m : StringMap) (k v : String)
    (h : (m.map Prod.fst).Nodup) : ((m.set k v).map Prod.fst).Nodup := by
  unfold StringMap.set
  rw [List.map_cons, List.nodup_cons]
  constructor
  · simp
  · exact h.sublist ((List.filter_sublist m).map Prod.fst)

/-- Storing members that are all strings gives no error, and the map then
holds for each key the value of the last member with that key, or what it
held before when no member has the key. -/
theorem decodeMembers_strings (members : List (String × JSONValue))
    (hall : ∀ e ∈ members, ∃ v, e.2 = .string v) (m : StringMap)
    (hm : (m.map Prod.fst).Nodup) :
    (decodeMembers members m none).2 = none
      ∧ ((decodeMembers members m none).1.map Prod.fst).Nodup
      ∧ ∀ k v, (decodeMembers members m none).1.lookup k = some v ↔
          (memberValue members k = some (.string v)
            ∨ (memberValue members k = none ∧ m.lookup k = some v)) := by
  induction members generalizing m with
  | nil =>
    refine ⟨rfl, hm, ?_⟩
    intro k v
    simp [decodeMembers, memberValue]
  | cons e rest ih =>
    obtain ⟨k1, val⟩ := e
    obtain ⟨s, hs⟩ := hall (k1, val) (by simp)
    simp only at hs
    subst hs
    have hrest : ∀ e ∈ rest, ∃ v, e.2 = .string v :=
      fun e he => hall e (List.mem_cons_of_mem _ he)
    obtain ⟨h1, h2, h3⟩ := ih hrest (m.set k1 s) (StringMap.nodup_set m k1 s hm)
    simp only [decodeMembers]
    refine ⟨h1, h2, ?_⟩
    intro k v
    rw [h3 k v, StringMap.lookup_set]
    cases hmv : memberValue rest k with
    | some w => simp [memberValue, hmv]
    | none =>
      by_cases hk : k = k1
      · subst hk
        simp [memberValue, hmv]
      · have hk2 : ¬ k1 = k := fun e => hk e.symm
        simp [memberValue, hmv, hk, hk2]

/-- C16: `UnmarshalJSON` accepts a display name in either form. For every JSON
string `s` it sets the receiver to the one-entry map with "en" bound to `s`
and returns nil; for every JSON object whose values are all strings it sets
the receiver to exactly that map (one entry per key, each key bound to the
string the object gives it) and returns nil. -/
theorem UnmarshalJSON_string_or_map (DN : DNMapOrString) (s : String)
    (members : List (String × JSONValue))
    (hall : ∀ e ∈ members, ∃ v, e.2 = .string v) :
    UnmarshalJSON DN (some (.string s)) = (some [("en", s)], none)
      ∧ ∃ result : StringMap,
          UnmarshalJSON DN (some (.object members)) = (some result, none)
            ∧ (result.map Prod.fst).Nodup
            ∧ ∀ k v, result.lookup k = some v ↔ memberValue members k = some (.string v) := by
  refine ⟨rfl, ?_⟩
  obtain ⟨h1, h2, h3⟩ := decodeMembers_strings members hall [] (by simp)
  refine ⟨(decodeMembers members [] none).1, ?_, h2, ?_⟩
  · simp [UnmarshalJSON, unmarshalString, unmarshalMap, JSONValue.kind, h1]
  · intro k v
    rw [h3 k v]
    simp

/-- Witness for C16: a display name given as a string, and one given as an
object in which "en" occurs twice. -/
theorem UnmarshalJSON_string_or_map_witness :
    UnmarshalJSON none (some (.string "Demo")) = (some [("en", "Demo")], none)
      ∧ ∃ result : StringMap,
          UnmarshalJSON none (some (.object displayNameObject)) = (some result, none)
            ∧ (result.map Prod.fst).Nodup
            ∧ ∀ k v, result.lookup k = some v ↔
                memberValue displayNameObject k = some (.string v) :=
  UnmarshalJSON_string_or_map none "Demo" displayNameObject (by
    intro e he
    simp only [displayNameObject, List.mem_cons, List.mem_singleton, List.not_mem_nil,
      or_false] at he
    rcases he with h | h | h <;> rw [h] <;> exact ⟨_, rfl⟩)

/-! ## Theorems: display names that are null or rejected -/

/-- Storing the members of an object ends without error exactly when there
was none before and every value is a string or `null`. -/
theorem decodeMembers_error_iff (members : List (String × JSONValue)) (m : StringMap)
    (err : Option JSONError) :
    (decodeMembers members m err).2 = none ↔
      (err = none ∧ (members.all fun e => e.2.isStringOrNull) = true) := by
  induction members generalizing m err with
  | nil => simp [decodeMembers]
  | cons e rest ih =>
    obtain ⟨k, v⟩ := e
    cases v with
    | string s => simp [decodeMembers, JSONValue.isStringOrNull, ih]
    | null => simp [decodeMembers, JSONValue.isStringOrNull, ih]
    | bool b => cases err <;> simp [decodeMembers, JSONValue.isStringOrNull, ih]
    | number n => cases err <;> simp [decodeMembers, JSONValue.isStringOrNull, ih]
    | array l => cases err <;> simp [decodeMembers, JSONValue.isStringOrNull, ih]
    | object l => cases err <;> simp [decodeMembers, JSONValue.isStringOrNull, ih]

/-- C21: for the JSON literal `null`, `UnmarshalJSON` takes the string branch
(decoding `null` into a Go string returns no error and leaves it empty): it
returns nil and sets the receiver to the map with "en" bound to the empty
string, which is neither the nil map nor an empty map. -/
theorem UnmarshalJSON_null (DN : DNMapOrString) :
    unmarshalString (some .null) "" = ("", none)
      ∧ UnmarshalJSON DN (some .null) = (some [("en", "")], none)
      ∧ (UnmarshalJSON DN (some .null)).1 ≠ none
      ∧ (UnmarshalJSON DN (some .null)).1 ≠ some [] := by
  refine ⟨rfl, rfl, ?_, ?_⟩
  · show (some [("en", "")] : DNMapOrString) ≠ none
    simp
  · show (some [("en", "")] : DNMapOrString) ≠ some []
    simp

/-- C25: `UnmarshalJSON` returns nil exactly for a JSON string, `null`, or a
JSON object all of whose values are strings or `null`. For every other input
(a number, a boolean, an array, an object with another kind of value, bytes
that are not JSON) it returns a non-nil error, which is the error of the
attempt to decode a map, and leaves the receiver as it was. -/
theorem UnmarshalJSON_rejects (DN : DNMapOrString) (data : Option JSONValue) :
    ((UnmarshalJSON DN data).2 = none ↔ displayNameInput data = true)
      ∧ (displayNameInput data = false →
          ∃ err, UnmarshalJSON DN data = (DN, some err)
            ∧ (unmarshalMap data none).2 = some err
            ∧ (unmarshalString data "").2 ≠ none) := by
  cases data with
  | none =>
    simp [UnmarshalJSON, unmarshalString, unmarshalMap, displayNameInput]
  | some v =>
    cases v with
    | null => simp [UnmarshalJSON, unmarshalString, displayNameInput]
    | string s => simp [UnmarshalJSON, unmarshalString, displayNameInput]
    | bool b =>
      simp [UnmarshalJSON, unmarshalString, unmarshalMap, displayNameInput, JSONValue.kind]
    | number n =>
      simp [UnmarshalJSON, unmarshalString, unmarshalMap, displayNameInput, JSONValue.kind]
    | array l =>
      simp [UnmarshalJSON, unmarshalString, unmarshalMap, displayNameInput, JSONValue.kind]
    | object members =>
      have hiff := decodeMembers_error_iff members [] none
      cases hd : (decodeMembers members [] none).2 with
      | none =>
        have hall := (hiff.mp hd).2
        simp [UnmarshalJSON, unmarshalString, unmarshalMap, displayNameInput,
          JSONValue.kind, hd, hall]
      | some e =>
        have hall : (members.all fun e => e.2.isStringOrNull) = false := by
          cases hc : (members.all fun e => e.2.isStringOrNull) with
          | false => rfl
          | true =>
            have := hiff.mpr ⟨rfl, hc⟩
            rw [hd] at this
            cases this
        simp only [displayNameInput, hall]
        simp [UnmarshalJSON, unmarshalString, unmarshalMap, JSONValue.kind, hd]

/-- Witness for C25: an object with a numeric value is rejected with the type
error of the map attempt, and the receiver keeps its map. -/
theorem UnmarshalJSON_rejects_witness :
    ∃ err, UnmarshalJSON (some [("en", "Old")]) (some (.object numericObject))
          = (some [("en", "Old")], some err)
      ∧ (unmarshalMap (some (.object numericObject)) none).2 = some err
      ∧ (unmarshalString (some (.object numericObject)) "").2 ≠ none :=
  (UnmarshalJSON_rejects (some [("en", "Old")]) (some (.object numericObject))).2 (by decide)

/-! ## Theorems: predecessors, reachability, leaving Deregistered for good -/

/-- What follows the first state of an accepted sequence is accepted. -/
theorem accepted_tail (states : FSMStates) (h : FSMStateID) (l : List FSMStateID)
    (hacc : accepted states (h :: l) = true) : accepted states l = true := by
  cases l with
  | nil => rfl
  | cons t rest =>
    simp only [accepted, Bool.and_eq_true] at hacc
    exact hacc.2

/-- Two neighbours in an accepted sequence are an allowed transition. -/
theorem accepted_pair (states : FSMStates) (a b : List FSMStateID) (x y : FSMStateID)
    (hacc : accepted states (a ++ x :: y :: b) = true) : allowed states x y = true := by
  induction a with
  | nil =>
    simp only [List.nil_append, accepted, Bool.and_eq_true] at hacc
    exact hacc.1
  | cons h rest ih => exact ih (accepted_tail states h _ hacc)

/-- Every state of an accepted sequence that starts at a key of the registry
of `newFSM` is a key of that registry. -/
theorem path_in_keys (p : List FSMStateID) (a : FSMStateID)
    (ha : a ∈ newFSMStates.map Prod.fst) (hacc : accepted newFSMStates (a :: p) = true) :
    ∀ x ∈ a :: p, x ∈ newFSMStates.map Prod.fst := by
  have closed : ∀ k ∈ newFSMStates.map Prod.fst, ∀ t ∈ targetsOf newFSMStates k,
      t ∈ newFSMStates.map Prod.fst := by decide
  induction p generalizing a with
  | nil =>
    intro x hx
    rw [List.mem_singleton] at hx
    rw [hx]
    exact ha
  | cons b rest ih =>
    have hb : b ∈ targetsOf newFSMStates a :=
      (allowed_iff_mem _ _ _).mp (accepted_pair newFSMStates [] rest a b hacc)
    intro x hx
    rcases List.mem_cons.mp hx with h | h
    · rw [h]
      exact ha
    · exact ih b (closed a ha b hb) (accepted_tail newFSMStates a _ hacc) x h

/-- C22: `RequestConfig` has exactly one predecessor, `Authorized`. In every
sequence of allowed transitions that starts at `Deregistered`, each
`RequestConfig` comes immediately after `Authorized`, and each `AskProfile` or
`ChosenProfile` comes after an `Authorized` immediately followed by
`RequestConfig`. -/
theorem RequestConfig_only_after_Authorized {D W : Type}
    (callback : FSMStateID → FSMStateID → D → W → Bool × W) (directory : String)
    (debug : Bool) (s : FSMStateID) (p : List FSMStateID)
    (hstart : p.head? = some StateDeregistered)
    (hacc : accepted (newFSM callback directory debug).States p = true) :
    (allowed (newFSM callback directory debug).States s StateRequestConfig = true ↔
        s = StateAuthorized)
      ∧ (∀ a b, p = a ++ StateRequestConfig :: b → ∃ a1, a = a1 ++ [StateAuthorized])
      ∧ (∀ a y b, p = a ++ y :: b → (y = StateAskProfile ∨ y = StateChosenProfile) →
          ∃ a1 a2, a = a1 ++ StateAuthorized :: StateRequestConfig :: a2) := by
  rw [newFSM_States] at hacc ⊢
  have pred : ∀ x t : FSMStateID, allowed newFSMStates x t = true →
      (t = StateRequestConfig → x = StateAuthorized)
        ∧ (t = StateAskProfile → x = StateRequestConfig)
        ∧ (t = StateChosenProfile → x = StateRequestConfig ∨ x = StateAskProfile) := by
    intro x t hal
    have hkey := key_of_allowed newFSMStates x t hal
    have hmem := (allowed_iff_mem _ _ _).mp hal
    have hall : ∀ k ∈ newFSMStates.map Prod.fst, ∀ u ∈ targetsOf newFSMStates k,
        (u = StateRequestConfig → k = StateAuthorized)
          ∧ (u = StateAskProfile → k = StateRequestConfig)
          ∧ (u = StateChosenProfile → k = StateRequestConfig ∨ k = StateAskProfile) := by
      decide
    exact hall x hkey t hmem
  have hreq : ∀ a b, p = a ++ StateRequestConfig :: b → ∃ a1, a = a1 ++ [StateAuthorized] := by
    intro a b hp
    rcases List.eq_nil_or_concat a with ha | ⟨a1, x, ha⟩
    · rw [hp, ha] at hstart
      have hne : StateRequestConfig ≠ StateDeregistered := by decide
      exact absurd (by simpa using hstart) hne
    · rw [List.concat_eq_append] at ha
      refine ⟨a1, ?_⟩
      have hp2 : p = a1 ++ x :: StateRequestConfig :: b := by
        rw [hp, ha, List.append_assoc]
        rfl
      rw [hp2] at hacc
      have hal := accepted_pair newFSMStates a1 b x StateRequestConfig hacc
      rw [ha, (pred x StateRequestConfig hal).1 rfl]
  refine ⟨?_, hreq, ?_⟩
  · constructor
    · intro h
      exact (pred s StateRequestConfig h).1 rfl
    · intro h
      rw [h]
      decide
  · intro a
    induction a using List.reverseRecOn with
    | nil =>
      intro y b hp hy
      rw [hp] at hstart
      have hyd : y = StateDeregistered := by simpa using hstart
      have hne1 : StateAskProfile ≠ StateDeregistered := by decide
      have hne2 : StateChosenProfile ≠ StateDeregistered := by decide
      rcases hy with hy | hy
      · exact absurd (hy ▸ hyd) hne1
      · exact absurd (hy ▸ hyd) hne2
    | append_singleton l z ih =>
      intro y b hp hy
      have hp2 : p = l ++ z :: y :: b := by rw [hp, List.append_assoc]; rfl
      have hal : allowed newFSMStates z y = true := by
        rw [hp2] at hacc
        exact accepted_pair newFSMStates l b z y hacc
      have hzAsk : z = StateAskProfile →
          ∃ a1 a2, l ++ [z] = a1 ++ StateAuthorized :: StateRequestConfig :: a2 := by
        intro hz
        obtain ⟨a1, a2, hl⟩ := ih z (y :: b) hp2 (Or.inl hz)
        exact ⟨a1, a2 ++ [z], by rw [hl]; simp⟩
      have hzReq : z = StateRequestConfig →
          ∃ a1 a2, l ++ [z] = a1 ++ StateAuthorized :: StateRequestConfig :: a2 := by
        intro hz
        rw [hz] at hp2
        obtain ⟨a1, hl⟩ := hreq l (y :: b) hp2
        exact ⟨a1, [], by rw [hl, hz]; simp⟩
      rcases hy with hy | hy
      · exact hzReq ((pred z y hal).2.1 hy)
      · rcases (pred z y hal).2.2 hy with hz | hz
        · exact hzReq hz
        · exact hzAsk hz

/-- Witness for C22: the first config retrieval in which the profile is asked
from the UI. -/
theorem RequestConfig_only_after_Authorized_witness :
    ∃ a1 a2, [StateDeregistered, StateNoServer, StateLoadingServer, StateChosenServer,
          StateOAuthStarted, StateAuthorized, StateRequestConfig, StateAskProfile]
        = a1 ++ StateAuthorized :: StateRequestConfig :: a2 :=
  (RequestConfig_only_after_Authorized countingCallback "dir" false StateAuthorized
    firstRetrievalAsk (by decide) (by decide)).2.2
      [StateDeregistered, StateNoServer, StateLoadingServer, StateChosenServer,
        StateOAuthStarted, StateAuthorized, StateRequestConfig, StateAskProfile]
      StateChosenProfile [StateGotConfig] (by decide) (Or.inr rfl)

/-- C23: every transition target in the registry of `newFSM` is itself a key
of the registry, and the states reachable from `Deregistered` by allowed
transitions are exactly the keys of the registry, which are the 15 declared
states. -/
theorem reachable_iff_registered {D W : Type}
    (callback : FSMStateID → FSMStateID → D → W → Bool × W) (directory : String)
    (debug : Bool) (s t : FSMStateID) :
    (allowed (newFSM callback directory debug).States s t = true →
        t ∈ (newFSM callback directory debug).States.map Prod.fst)
      ∧ (Reachable (newFSM callback directory debug).States s ↔
          s ∈ (newFSM callback directory debug).States.map Prod.fst)
      ∧ (s ∈ (newFSM callback directory debug).States.map Prod.fst ↔ s ∈ allStateIDs)
      ∧ allStateIDs.length = 15 := by
  rw [newFSM_States]
  refine ⟨?_, ?_, ?_, rfl⟩
  · intro hal
    have hkey := key_of_allowed newFSMStates s t hal
    have hmem := (allowed_iff_mem _ _ _).mp hal
    have closed : ∀ k ∈ newFSMStates.map Prod.fst, ∀ u ∈ targetsOf newFSMStates k,
        u ∈ newFSMStates.map Prod.fst := by decide
    exact closed s hkey t hmem
  · constructor
    · rintro ⟨p, hhead, hlast, hacc⟩
      cases p with
      | nil => simp at hhead
      | cons a rest =>
        have ha : a = StateDeregistered := by simpa using hhead
        have hin := path_in_keys rest a (by rw [ha]; decide) hacc
        exact hin s (List.mem_of_getLast?_eq_some hlast)
    · intro hs
      have hall : ∀ k ∈ newFSMStates.map Prod.fst, ∃ p ∈ reachPaths,
          p.head? = some StateDeregistered ∧ p.getLast? = some k
            ∧ accepted newFSMStates p = true := by decide
      obtain ⟨p, _, h1, h2, h3⟩ := hall s hs
      exact ⟨p, h1, h2, h3⟩
  · have h1 : ∀ k ∈ newFSMStates.map Prod.fst, k ∈ allStateIDs := by decide
    have h2 : ∀ k ∈ allStateIDs, k ∈ newFSMStates.map Prod.fst := by decide
    exact ⟨h1 s, h2 s⟩

/-- Witness for C23: `Connected` is listed for `NoServer` and is a key. -/
theorem reachable_iff_registered_witness :
    StateConnected ∈ (newFSM countingCallback "dir" false).States.map Prod.fst :=
  (reachable_iff_registered countingCallback "dir" false StateNoServer StateConnected).1
    (by decide)

/-- No state of the registry of `newFSM` lists `Deregistered`. -/
theorem Deregistered_not_listed (s : FSMStateID) :
    allowed newFSMStates s StateDeregistered = false := by
  cases h : allowed newFSMStates s StateDeregistered with
  | false => rfl
  | true =>
    have hkey := key_of_allowed newFSMStates s StateDeregistered h
    have hall : ∀ k ∈ newFSMStates.map Prod.fst,
        allowed newFSMStates k StateDeregistered = false := by decide
    rw [hall s hkey] at h
    cases h

/-- With the registry of `newFSM`, a transition request keeps the registry; a
request that succeeds, or one served outside `Deregistered`, leaves the
machine outside `Deregistered`; a rejected request leaves the machine as it
was. -/
theorem transition_leaves_Deregistered {D W : Type} (m : FSM D W)
    (hS : m.States = newFSMStates) (t : FSMStateID) (d : D) (w : W) :
    (m.transition t d w).2.1.States = newFSMStates
      ∧ ((m.transition t d w).1 = true →
          (m.transition t d w).2.1.Current ≠ StateDeregistered)
      ∧ (m.Current ≠ StateDeregistered →
          (m.transition t d w).2.1.Current ≠ StateDeregistered)
      ∧ ((m.transition t d w).1 = false → (m.transition t d w).2 = (m, w)) := by
  unfold FSM.transition
  by_cases hal : allowed m.States m.Current t = true
  · simp only [hal, if_true]
    have htd : t ≠ StateDeregistered := by
      intro e
      rw [hS, e, Deregistered_not_listed] at hal
      cases hal
    exact ⟨hS, fun _ => htd, fun _ => htd, fun h => absurd h (by decide)⟩
  · have hal2 : allowed m.States m.Current t = false := by simpa using hal
    simp only [hal2, Bool.false_eq_true, if_false]
    exact ⟨hS, fun h => absurd h (by decide), fun h => h, fun _ => trivial⟩

/-- With the registry of `newFSM`, a machine outside `Deregistered` stays
outside it whatever requests it serves. -/
theorem run_outside_Deregistered {D W : Type} (reqs : List (FSMStateID × D)) (m : FSM D W)
    (hS : m.States = newFSMStates) (hcur : m.Current ≠ StateDeregistered) (w : W) :
    (m.run w reqs).2.1.Current ≠ StateDeregistered := by
  induction reqs generalizing m w with
  | nil => exact hcur
  | cons r rest ih =>
    have hstep := transition_leaves_Deregistered m hS r.1 r.2 w
    simp only [FSM.run]
    exact ih _ hstep.1 (hstep.2.2.1 hcur) _

/-- With the registry of `newFSM`, once one of the requests served has
succeeded the machine is outside `Deregistered`. -/
theorem run_after_success {D W : Type} (reqs : List (FSMStateID × D)) (m : FSM D W)
    (hS : m.States = newFSMStates) (w : W) (hsucc : true ∈ (m.run w reqs).1) :
    (m.run w reqs).2.1.Current ≠ StateDeregistered := by
  induction reqs generalizing m w with
  | nil => simp [FSM.run] at hsucc
  | cons r rest ih =>
    have hstep := transition_leaves_Deregistered m hS r.1 r.2 w
    simp only [FSM.run] at hsucc ⊢
    cases hr : (m.transition r.1 r.2 w).1 with
    | true =>
      exact run_outside_Deregistered rest _ hstep.1 (hstep.2.1 hr) _
    | false =>
      rw [hr] at hsucc
      have hrest : true ∈ ((m.transition r.1 r.2 w).2.1.run (m.transition r.1 r.2 w).2.2
          rest).1 := by
        rcases List.mem_cons.mp hsucc with h | h
        · cases h
        · exact h
      exact ih _ hstep.1 _ hrest

/-- C24: no state lists `Deregistered` as a target; and for a machine of
`newFSM`, whatever list of transition requests it serves, if one of them has
succeeded then its current state at the end is not `Deregistered`. -/
theorem never_Deregistered_again {D W : Type}
    (callback : FSMStateID → FSMStateID → D → W → Bool × W) (directory : String)
    (debug : Bool) (s : FSMStateID) (w : W) (reqs : List (FSMStateID × D)) :
    allowed (newFSM callback directory debug).States s StateDeregistered = false
      ∧ (true ∈ ((newFSM callback directory debug).run w reqs).1 →
          ((newFSM callback directory debug).run w reqs).2.1.Current ≠ StateDeregistered) := by
  rw [newFSM_States]
  exact ⟨Deregistered_not_listed s,
    fun h => run_after_success reqs (newFSM callback directory debug) rfl w h⟩

/-- Witness for C24: after registering, a request for `Deregistered` is
rejected and the machine stays in `NoServer`. -/
theorem never_Deregistered_again_witness :
    true ∈ ((newFSM countingCallback "dir" false).run 0
        [(StateNoServer, "a"), (StateDeregistered, "b")]).1
      ∧ ((newFSM countingCallback "dir" false).run 0
          [(StateNoServer, "a"), (StateDeregistered, "b")]).2.1.Current
          ≠ StateDeregistered :=
  ⟨by decide,
    (never_Deregistered_again countingCallback "dir" false StateNoServer 0
      [(StateNoServer, "a"), (StateDeregistered, "b")]).2 (by decide)⟩

end EduVPN
